import Mathlib

/-!
Verification of the ozone-logger acquisition/calibration control loop
(`ozone-logger.py`).  The Python source is shallowly embedded below:

* Python `str` values are modelled as `List Char` (`Str`); Python string
  primitives (`find`, slicing, `strip`, `split`) are modelled as
  executable Lean functions with the same semantics.
* Python `float` values are modelled as exact rationals `ℚ` (times and
  voltages); `float(s)` is modelled by `pyFloat?` (sign, integer part,
  fractional part — the decimal forms the instrument emits) and
  `str(float)` by `pyStrFloat` (exact decimal expansion, `.0` appended
  to integral values, as Python prints them).
* Wall-clock datetimes are modelled as rational seconds since the epoch
  in the naive local timezone; `datetime.date()` comparison becomes
  comparison of floored day numbers, `strftime` is implemented with the
  standard civil-from-days calendar conversion.
* One pass of the `while True:` body is the function `step`, a pure
  state transformer over `LoopState`; every environment interaction
  (each `datetime.now()` / `time.monotonic()` sample, the serial line,
  the GPIO read-backs, the sentinel-file check) is an oracle field of
  `Input`, and every file-system effect is recorded in an event trace.
-/

/-- Python strings are modelled as lists of characters. -/
abbrev Str := List Char

/-- Coerce a Lean string literal to the `Str` model. -/
def lit (s : String) : Str := s.data

/- ------------------------------------------------------------------
Control variables (constants of the source, lines 21-35).
------------------------------------------------------------------ -/

/-- Constant `cal_start_hour = 15`: calibration starts at 15:00 local time. -/
def cal_start_hour : ℕ := 15

/-- Constant `cal_span_secs = 300`: seconds to span. -/
def cal_span_secs : ℕ := 300

/-- Constant `cal_zero_secs = 300`: seconds to zero (after span). -/
def cal_zero_secs : ℕ := 300

/-- Constant `time_exception_secs = 100`: allowed prediction/wall-clock gap. -/
def time_exception_secs : ℕ := 100

/-- Constant `flush_after_secs = 60`: seconds between forced buffer flushes. -/
def flush_after_secs : ℕ := 60

/- ------------------------------------------------------------------
Python string primitives.
------------------------------------------------------------------ -/

/-- Worker for Python `str.find`: first index `≥ k` (counting from the
original start) at which `needle` occurs in `haystack`, scanning left to
right. -/
def pyFindAux : Str → Str → ℕ → Option ℕ
  | [], needle, k => if needle = [] then some k else none
  | c :: cs, needle, k =>
      if needle.isPrefixOf (c :: cs) then some k else pyFindAux cs needle (k + 1)

/-- Python `haystack.find(needle)`: index of the first occurrence, `-1`
if absent (`''.find('')` is `0`, as in Python). -/
def pyFind (haystack needle : Str) : ℤ :=
  match pyFindAux haystack needle 0 with
  | some k => (k : ℤ)
  | none => -1

/-- Python `s.split(sep)[0]` for a nonempty separator: the text before
the first occurrence of `sep` (all of `s` if `sep` is absent). -/
def splitHead (s sep : Str) : Str :=
  match pyFindAux s sep 0 with
  | some k => s.take k
  | none => s

/-- ASCII whitespace recognised by Python `str.strip()`. -/
def isWs (c : Char) : Bool :=
  c = ' ' || c = '\t' || c = '\n' || c = '\x0d' || c = '\x0b' || c = '\x0c'

/-- Python `s.strip()`: remove leading and trailing whitespace. -/
def pyStrip (s : Str) : Str :=
  ((s.dropWhile isWs).reverse.dropWhile isWs).reverse

/-- Split a string at every `'.'` (used to model `float(s)` parsing). -/
def splitDot : Str → List Str
  | [] => [[]]
  | c :: r =>
      if c = '.' then [] :: splitDot r
      else
        match splitDot r with
        | s :: ss => (c :: s) :: ss
        | [] => [[c]]

/-- Numeric value of a digit string (most significant digit first). -/
def digitsToNat (l : Str) : ℕ :=
  l.foldl (fun acc c => 10 * acc + (c.toNat - 48)) 0

/-- Decimal digit test used by the `float(s)` model. -/
def allDigits (l : Str) : Bool := l.all Char.isDigit

/-- Model of Python `float(s)` on the decimal forms the instrument
emits: optional surrounding whitespace, optional sign, an integer part
and an optional fractional part (at least one digit overall).  Returns
`none` exactly when Python raises `ValueError`.  (Exponent notation and
the `inf`/`nan` keywords are outside the modelled input language;
binary floats are idealised as exact rationals.) -/
def pyFloat? (s : Str) : Option ℚ :=
  let t := pyStrip s
  match t with
  | [] => none
  | c :: rest =>
      let sign : ℚ := if c = '-' then -1 else 1
      let body : Str := if c = '-' || c = '+' then rest else t
      match splitDot body with
      | [d] =>
          if d ≠ [] && allDigits d then some (sign * (digitsToNat d : ℚ)) else none
      | [a, b] =>
          if (a ≠ [] || b ≠ []) && allDigits a && allDigits b then
            some (sign * ((digitsToNat a : ℚ) + (digitsToNat b : ℚ) / (10 : ℚ) ^ b.length))
          else none
      | _ => none

/-- Decimal digits of `n`, most significant first (`[]` for `0`);
fuelled recursion so that concrete instances reduce definitionally. -/
def natDigsF : ℕ → ℕ → Str
  | 0, _ => []
  | fuel + 1, n => if n = 0 then [] else natDigsF fuel (n / 10) ++ [Nat.digitChar (n % 10)]

/-- Decimal rendering of a natural number. -/
def natStr (n : ℕ) : Str := if n = 0 then ['0'] else natDigsF n n

/-- Decimal rendering of an integer (Python `str(int)`). -/
def intStr (n : ℤ) : Str := if n < 0 then '-' :: natStr n.natAbs else natStr n.natAbs

/-- Number of decimal digits needed for the fractional part of `q`
(`0` when `q` is integral), with fuel; every value produced by
`pyFloat?` terminates well inside the fuel bound. -/
def fracLen : ℚ → ℕ → ℕ
  | _, 0 => 0
  | q, fuel + 1 => if q.den = 1 then 0 else fracLen (q * 10) fuel + 1

/-- Left-pad a digit string with `'0'` to at least `k + 1` characters. -/
def padLeft (l : Str) (k : ℕ) : Str := List.replicate (k + 1 - l.length) '0' ++ l

/-- Model of Python `str(x)` for a float `x` idealised as the rational
`q`: the exact decimal expansion, with `.0` appended to integral values
(`str(500.0) = '500.0'`, `str(0.5) = '0.5'`). -/
def pyStrFloat (q : ℚ) : Str :=
  let k := fracLen q 400
  let m : ℤ := (q * (10 : ℚ) ^ k).num
  let ds := padLeft (natDigsF m.natAbs m.natAbs) k
  let ip := ds.take (ds.length - k)
  let fp := ds.drop (ds.length - k)
  let core := if k = 0 then ip ++ ['.', '0'] else ip ++ '.' :: fp
  if m < 0 then '-' :: core else core

/- ------------------------------------------------------------------
Calendar / strftime model.  Wall-clock datetimes are rational seconds
since the epoch in the naive local timezone.
------------------------------------------------------------------ -/

/-- Calendar day number of a wall-clock instant (`datetime.date()`:
two instants compare equal/less on `.date()` exactly as their floored
day numbers do). -/
def dateOf (t : ℚ) : ℤ := ⌊t / 86400⌋

/-- Start of the calendar day containing `t`, in epoch seconds
(`walltime.replace(hour=0, minute=0, second=0, microsecond=0)`). -/
def dayStart (t : ℚ) : ℚ := 86400 * (dateOf t : ℚ)

/-- Civil (year, month, day) from a day number (days since 1970-01-01),
the standard Gregorian conversion. -/
def civilFromDays (z0 : ℤ) : ℤ × ℤ × ℤ :=
  let z := z0 + 719468
  let era := (if 0 ≤ z then z else z - 146096) / 146097
  let doe := z - era * 146097
  let yoe := (doe - doe / 1460 + doe / 36524 - doe / 146096) / 365
  let y := yoe + era * 400
  let doy := doe - (365 * yoe + yoe / 4 - yoe / 100)
  let mp := (5 * doy + 2) / 153
  let d := doy - (153 * mp + 2) / 5 + 1
  let m := mp + (if mp < 10 then 3 else -9)
  (y + (if m ≤ 2 then 1 else 0), m, d)

/-- Zero-padded two-digit rendering of a small nonnegative integer. -/
def pad2 (n : ℤ) : Str := if n < 10 then '0' :: natStr n.toNat else natStr n.toNat

/-- Zero-padded four-digit rendering of a year. -/
def pad4 (n : ℤ) : Str := padLeft (natStr n.toNat) 3

/-- The pieces of a timestamp: year, month, day, hour, minute, second. -/
def timePieces (t : ℚ) : (ℤ × ℤ × ℤ) × ℕ × ℕ × ℕ :=
  let days := dateOf t
  let sod := (⌊t⌋ - 86400 * days).toNat
  (civilFromDays days, sod / 3600, sod % 3600 / 60, sod % 60)

/-- Format `strftime('%Y-%m-%d %H:%M:%S')` (the `timeformat` constant). -/
def fmtTime (t : ℚ) : Str :=
  match timePieces t with
  | ((y, mo, d), hh, mi, ss) =>
      pad4 y ++ '-' :: pad2 mo ++ '-' :: pad2 d ++ ' ' ::
        pad2 hh ++ ':' :: pad2 mi ++ ':' :: pad2 ss

/-- Format `strftime('ozone-log-%Y%m%dT%H%M%S.txt')`: the log-file name. -/
def logFileName (t : ℚ) : Str :=
  match timePieces t with
  | ((y, mo, d), hh, mi, ss) =>
      lit ("ozone-log-") ++ pad4 y ++ pad2 mo ++ pad2 d ++ 'T' ::
        pad2 hh ++ pad2 mi ++ pad2 ss ++ lit (".txt")

/- ------------------------------------------------------------------
Frame Parser (source lines 44-46 and 114-131).
------------------------------------------------------------------ -/

/-- List `varnames`: the nine instrument field names. -/
def varnames : List Str :=
  [lit ("O3_ppb"), lit ("fault"), lit ("mode"), lit ("abscoef"), lit ("offset_ppb"),
   lit ("temp_c"), lit ("pres_atm"), lit ("cont_hz"), lit ("samp_hz")]

/-- List `position`: the nine cursor-position anchor bodies. -/
def position : List Str :=
  [lit ("05;17H"), lit ("07;12H"), lit ("07;25H"), lit ("07;38H"), lit ("07;56H"),
   lit ("08;11H"), lit ("09;11H"), lit ("10;11H"), lit ("10;32H")]

/-- List `unit`: the expected unit substring for each field (`''` matches
anything). -/
def unit : List Str :=
  [lit ("ppm"), [], [], [], [], lit ("C"), lit ("ATM"), [], []]

/-- The literal anchor pattern searched for: `'\x1b[' + loc + '\x00'`. -/
def anchorOf (loc : Str) : Str := '\x1b' :: '[' :: (loc ++ ['\x00'])

/-- One iteration of the per-anchor extraction loop (source lines
117-124): find the anchor; take the text after it, strip whitespace,
truncate at the next escape sequence; keep the first space-separated
token if the unit substring occurs, else leave the default `''`. -/
def parseField (datline loc u : Str) : Str :=
  let strloc : ℤ := pyFind datline (anchorOf loc)
  if strloc > -1 then
    let dataval := splitHead (pyStrip (datline.drop (strloc.toNat + 9))) ('\x1b' :: ['['])
    if pyFind dataval u > -1 then splitHead dataval [' '] else []
  else []

/-- The nine raw extracted fields of one line. -/
def rawFields (datline : Str) : List Str :=
  List.zipWith (fun loc u => parseField datline loc u) position unit

/-- The ozone ppm→ppb reinterpretation (source lines 127-131):
`serialvector[0] = str(1000*float(serialvector[0]))`, with any
`ValueError` converted to the `'NaN'` sentinel. -/
def ozoneConv (s : Str) : Str :=
  match pyFloat? s with
  | some q => pyStrFloat (1000 * q)
  | none => lit ("NaN")

/-- Definition `serialvector` as written (lines 114-131): the nine extracted
fields with field 0 converted to ppb. -/
def serialvector (datline : Str) : List Str :=
  match rawFields datline with
  | [] => []
  | v0 :: rest => ozoneConv v0 :: rest

/- ------------------------------------------------------------------
Calibration Scheduler (source lines 84-106).
------------------------------------------------------------------ -/

/-- The requested calibration mode for wall-clock instant `w` (source
lines 88-96): `calspan` is today's `cal_start_hour:00:00`; the two
`if` statements are transcribed in order. -/
def calmodeRequest (w : ℚ) : ℕ :=
  let calspan : ℚ := dayStart w + 3600 * (cal_start_hour : ℚ)
  let calzero : ℚ := calspan + (cal_span_secs : ℚ)
  let calend : ℚ := calzero + (cal_zero_secs : ℚ)
  let r1 : ℕ := if calspan < w ∧ w < calzero then 3 else 0
  if calzero < w ∧ w < calend then 1 else r1

/- ------------------------------------------------------------------
Acquisition loop state machine (source lines 74-193).
------------------------------------------------------------------ -/

/-- Python 3 `==` between a `str` and a `bytes` value: the operands
have different types, so equality is `False` regardless of content.
This models the guard `datline == b''` on source line 110, where
`datline` is the already-decoded `str`. -/
def pyEqStrBytes (_decoded : Str) (_bytes : List ℕ) : Bool := false

/-- File-lifecycle events of one loop iteration, in program order. -/
inductive FileEv
  | fopen (name : Str)
  | headerLine
  | dataLine
  | flushBuf
  | excLine
  | fclose
deriving DecidableEq, Repr

/-- The loop-owned mutable state: `last_dt`, `lastwrite_monotonic`,
`lastflush_monotonic`, `outfile_open`.  (`last_dt` is unassigned in
Python until the first file open; it is modelled with an arbitrary
initial value, which the code never reads before assigning — the first
iteration runs with `outfile_open = false` and sets it.) -/
structure LoopState where
  lastDt : ℚ
  lastwriteMono : ℚ
  lastflushMono : ℚ
  outfileOpen : Bool
deriving DecidableEq, Repr

/-- One iteration's environment samples, in the order the source takes
them: `w1 = datetime.now()` at the loop top; the decoded serial line;
`m1`, `m2` the two `time.monotonic()` samples of lines 133-134;
`wOpen`, `wOpenB` the two `datetime.now()` calls in the file-open
branch; the `span.is_on()` / `zero.is_on()` read-backs and the analog
voltage; `m3` the `time.monotonic()` on flush; `w3 = datetime.now()`
for the time-shift check; the sentinel-file existence test; and `m4`
the final `time.monotonic()`. -/
structure Input where
  w1 : ℚ
  datline : Str
  m1 : ℚ
  m2 : ℚ
  wOpen : ℚ
  wOpenB : ℚ
  spanOn : Bool
  zeroOn : Bool
  volts : ℚ
  m3 : ℚ
  w3 : ℚ
  sentinel : Bool
  m4 : ℚ
deriving DecidableEq, Repr

/-- Observable outcome of one iteration. -/
structure StepOut where
  events : List FileEv
  request : ℕ
  spanSet : Bool
  zeroSet : Bool
  diagSent : Bool
  predDt : ℚ
  exception : Bool
  sentinelRemoved : Bool
  record : List Str
deriving DecidableEq, Repr

/-- One pass of the `while True:` body (source lines 83-193), as a pure
state transformer.  Every assignment is transcribed in source order;
file-system effects are recorded as events. -/
def step (st : LoopState) (inp : Input) : LoopState × StepOut :=
  -- lines 84-96: calibration window and requested mode
  let request := calmodeRequest inp.w1
  -- lines 97-106: drive the two digital outputs from the mode bits
  let spanSet : Bool := request &&& 2 != 0
  let zeroSet : Bool := request &&& 1 != 0
  -- lines 109-112: `if datline == b'': ser.write(b'd')`
  let diagSent : Bool := pyEqStrBytes inp.datline []
  -- lines 114-131: frame parsing
  let sv := serialvector inp.datline
  -- lines 133-134
  let secsW0 := inp.m1 - st.lastwriteMono
  let secsF0 := inp.m2 - st.lastflushMono
  -- lines 136-145: lazy file open, header line, timer reset
  let needOpen : Bool := !st.outfileOpen
  let openEvs : List FileEv :=
    if needOpen then [FileEv.fopen (logFileName inp.wOpen), FileEv.headerLine] else []
  let lastDt0 := if needOpen then inp.wOpenB else st.lastDt
  let secsW := if needOpen then 0 else secsW0
  let secsF := if needOpen then 0 else secsF0
  -- line 147: predicted timestamp
  let predDt := lastDt0 + secsW
  -- lines 149-156: base data (actual calmode from the read-backs)
  let calmode : ℕ := (cond inp.spanOn 1 0) * 2 + (cond inp.zeroOn 1 0)
  let basedata : List Str := [fmtTime predDt, natStr calmode, pyStrFloat inp.volts]
  -- lines 157-159: record assembly and write
  let record := basedata ++ sv
  -- lines 161-163: flush cadence
  let doFlush : Bool := decide ((flush_after_secs : ℚ) < secsF)
  let flushEvs : List FileEv := if doFlush then [FileEv.flushBuf] else []
  let lastflush1 := if doFlush then inp.m3 else st.lastflushMono
  -- lines 166-167: fresh wall-clock sample and divergence
  let curr := inp.w3
  let diff := curr - predDt
  -- lines 169-188: time-shift exception, else rotation checks
  let isExc : Bool := decide ((time_exception_secs : ℚ) < |diff|)
  let newfileReq : Bool := inp.sentinel
  let rollover : Bool := decide (dateOf lastDt0 < dateOf curr)
  let closeEvs : List FileEv :=
    if isExc then [FileEv.excLine, FileEv.fclose]
    else if newfileReq || rollover then [FileEv.fclose] else []
  let open1 : Bool := if isExc then false else if newfileReq || rollover then false else true
  let sentRemoved : Bool := if isExc then false else (newfileReq || rollover) && newfileReq
  -- lines 190-193: rebase
  (⟨curr, inp.m4, lastflush1, open1⟩,
   ⟨openEvs ++ [FileEv.dataLine] ++ flushEvs ++ closeEvs,
    request, spanSet, zeroSet, diagSent, predDt, isExc, sentRemoved, record⟩)

/-- Python error raised by touching an unbound name. -/
inductive PyErr
  | nameErr
deriving DecidableEq, Repr

/-- One pass of the loop body when the `import explorerhat` guard
(source lines 65-71) is taken into account.  When the import failed,
the names `span`, `zero` and `O3_volts` are unbound; the calibration
block's unconditional `span.on()` / `span.off()` (lines 97-100) —
executed before any other effect of the iteration — raises `NameError`,
which no handler catches, so the iteration (and the process) dies. -/
def stepE (explorerhatOk : Bool) (st : LoopState) (inp : Input) :
    Except PyErr (LoopState × StepOut) :=
  if explorerhatOk then Except.ok (step st inp) else Except.error PyErr.nameErr

/-- Startup state (source lines 74-80): both monotonic marks taken at
startup, `outfile_open = False`; `last_dt` not yet assigned (modelled
as `0`, never read before the first assignment). -/
def initState (m0 m0' : ℚ) : LoopState :=
  ⟨0, m0, m0', false⟩

/-- Event trace of running the loop over a list of per-iteration
inputs. -/
def runEvents (st : LoopState) : List Input → List FileEv
  | [] => []
  | i :: is => (step st i).2.events ++ runEvents (step st i).1 is

/-- Strings made of digits, `'.'` and `'-'`: the shape of any numeric
rendering and of plausible instrument field values. -/
def numericStr (s : Str) : Prop :=
  s ≠ [] ∧ ∀ c ∈ s, c.isDigit = true ∨ c = '.' ∨ c = '-'

/-- The text segment embedded after an anchor: the value, followed by
the unit token (separated by one space) when a unit is expected. -/
def mkSeg (v u : Str) : Str := if u = [] then v else v ++ ' ' :: u

/-- One display block of the synthetic line: anchor plus segment. -/
def blockOf (loc v u : Str) : Str := anchorOf loc ++ mkSeg v u

/-- A synthetic instrument line embedding the nine values at the nine
documented anchors with the correct unit tokens. -/
def mkLine9 (v0 v1 v2 v3 v4 v5 v6 v7 v8 : Str) : Str :=
  blockOf (lit ("05;17H")) v0 (lit ("ppm")) ++
  (blockOf (lit ("07;12H")) v1 [] ++
  (blockOf (lit ("07;25H")) v2 [] ++
  (blockOf (lit ("07;38H")) v3 [] ++
  (blockOf (lit ("07;56H")) v4 [] ++
  (blockOf (lit ("08;11H")) v5 (lit ("C")) ++
  (blockOf (lit ("09;11H")) v6 (lit ("ATM")) ++
  (blockOf (lit ("10;11H")) v7 [] ++
  blockOf (lit ("10;32H")) v8 [])))))))

/-- Final loop state after a list of iterations. -/
def runState (s : LoopState) : List Input → LoopState
  | [] => s
  | i :: is => runState (step s i).1 is

/-- Legality checker for a file-event trace: `c` counts currently open
files; opening requires none open, closing requires one open; returns
the final count, or `none` if the trace ever double-opens or
double-closes (in particular if two files are ever open at once). -/
def balStep : ℕ → List FileEv → Option ℕ
  | c, [] => some c
  | c, FileEv.fopen _ :: r => if c = 0 then balStep 1 r else none
  | c, FileEv.fclose :: r => if c = 1 then balStep 0 r else none
  | c, FileEv.headerLine :: r => balStep c r
  | c, FileEv.dataLine :: r => balStep c r
  | c, FileEv.flushBuf :: r => balStep c r
  | c, FileEv.excLine :: r => balStep c r

/- ------------------------------------------------------------------
Generic helper lemmas.
------------------------------------------------------------------ -/

/-- Unfold the projections of `step` needed by most claims. -/
theorem step_events_eq (st : LoopState) (inp : Input) :
    (step st inp).2.events =
      (if !st.outfileOpen then
        [FileEv.fopen (logFileName inp.wOpen), FileEv.headerLine] else []) ++
      [FileEv.dataLine] ++
      (if decide ((flush_after_secs : ℚ) <
          (if !st.outfileOpen then 0 else inp.m2 - st.lastflushMono)) then
        [FileEv.flushBuf] else []) ++
      (if decide ((time_exception_secs : ℚ) <
          |inp.w3 - ((if !st.outfileOpen then inp.wOpenB else st.lastDt) +
            (if !st.outfileOpen then 0 else inp.m1 - st.lastwriteMono))|) then
        [FileEv.excLine, FileEv.fclose]
      else if inp.sentinel ||
          decide (dateOf (if !st.outfileOpen then inp.wOpenB else st.lastDt) < dateOf inp.w3) then
        [FileEv.fclose]
      else []) := rfl

/- ------------------------------------------------------------------
Claim C1 — Calibration Scheduler windows.
------------------------------------------------------------------ -/

/-- Claim C1 is false on the code: at 15:00:10 local time — strictly
inside the claimed SPAN window `[start, start+span)` — the scheduler
requests mode `3` (both span and zero bits set), not SPAN (= 2); and at
the boundary instant `start` itself (15:00:00, instant `54000` of day
zero) it requests `0`, not the mode of the interval the boundary opens. -/
theorem calmode_span_not_two :
    dayStart 54010 + 3600 * (cal_start_hour : ℚ) = 54000 ∧
    (54000 : ℚ) < 54010 ∧ (54010 : ℚ) < 54000 + (cal_span_secs : ℚ) ∧
    calmodeRequest 54010 = 3 ∧ calmodeRequest 54010 ≠ 2 ∧
    calmodeRequest 54000 = 0 := by
  have hd : dateOf (54010 : ℚ) = 0 := by
    norm_num [dateOf, Int.floor_eq_iff]
  have hd0 : dateOf (54000 : ℚ) = 0 := by
    norm_num [dateOf, Int.floor_eq_iff]
  refine ⟨?_, by norm_num, ?_, ?_, ?_, ?_⟩
  · rw [dayStart, hd]; norm_num [cal_start_hour]
  · norm_num [cal_span_secs]
  · rw [calmodeRequest, dayStart, hd]
    norm_num [cal_start_hour, cal_span_secs, cal_zero_secs]
  · rw [calmodeRequest, dayStart, hd]
    norm_num [cal_start_hour, cal_span_secs, cal_zero_secs]
  · rw [calmodeRequest, dayStart, hd0]
    norm_num [cal_start_hour, cal_span_secs, cal_zero_secs]

/-- Claim C1 (amended): with `s` today's 15:00:00, the scheduler
requests mode `3` (SPAN_AND_ZERO: both output bits on) for instants
strictly between `s` and `s+span`, mode `1` (ZERO) strictly between
`s+span` and `s+span+zero`, and mode `0` (NONE) everywhere else —
including all three boundary instants, because the source compares with
strict `>` and `<` on both ends (open intervals, not half-open). -/
theorem calmode_windows (w : ℚ) :
    (dayStart w + 54000 < w ∧ w < dayStart w + 54300 → calmodeRequest w = 3) ∧
    (dayStart w + 54300 < w ∧ w < dayStart w + 54600 → calmodeRequest w = 1) ∧
    ((w ≤ dayStart w + 54000 ∨ w = dayStart w + 54300 ∨ dayStart w + 54600 ≤ w) →
      calmodeRequest w = 0) := by
  have hs : (3600 : ℚ) * (cal_start_hour : ℕ) = 54000 := by norm_num [cal_start_hour]
  have hsp : ((cal_span_secs : ℕ) : ℚ) = 300 := by norm_num [cal_span_secs]
  have hz : ((cal_zero_secs : ℕ) : ℚ) = 300 := by norm_num [cal_zero_secs]
  simp only [calmodeRequest, hs, hsp, hz]
  refine ⟨fun h => ?_, fun h => ?_, fun h => ?_⟩ <;> split_ifs with h1 h2
  · exact absurd h.2 (by linarith [h1.1])
  · rfl
  · exact absurd (And.intro (by linarith [h.1] : dayStart w + 54000 < w)
      (by linarith [h.2] : w < dayStart w + 54000 + 300)) h2
  · rfl
  · exact absurd (And.intro (by linarith [h.1] : dayStart w + 54000 + 300 < w)
      (by linarith [h.2] : w < dayStart w + 54000 + 300 + 300)) h1
  · exact absurd (And.intro (by linarith [h.1] : dayStart w + 54000 + 300 < w)
      (by linarith [h.2] : w < dayStart w + 54000 + 300 + 300)) h1
  · rcases h with h | h | h
    · exact absurd h1 (by push_neg; intro hlt; linarith)
    · exact absurd h1 (by push_neg; intro hlt; linarith)
    · exact absurd h1 (by push_neg; intro hlt; linarith)
  · rcases h with h | h | h
    · exact absurd h2 (by push_neg; intro hlt; linarith)
    · exact absurd h2 (by push_neg; intro hlt; linarith)
    · exact absurd h2 (by push_neg; intro hlt; linarith)
  · rfl

/-- Witness for `calmode_windows` at concrete instants of day zero. -/
theorem calmode_windows_witness :
    calmodeRequest 54010 = 3 ∧ calmodeRequest 54310 = 1 ∧ calmodeRequest 10 = 0 := by
  have h1 : dayStart (54010 : ℚ) = 0 := by
    norm_num [dayStart, dateOf, Int.floor_eq_iff]
  have h2 : dayStart (54310 : ℚ) = 0 := by
    norm_num [dayStart, dateOf, Int.floor_eq_iff]
  have h3 : dayStart (10 : ℚ) = 0 := by
    norm_num [dayStart, dateOf, Int.floor_eq_iff]
  exact ⟨(calmode_windows 54010).1 (by rw [h1]; norm_num),
         (calmode_windows 54310).2.1 (by rw [h2]; norm_num),
         (calmode_windows 10).2.2 (Or.inl (by rw [h3]; norm_num))⟩

/- ------------------------------------------------------------------
Claim C2 — missing GPIO/analog collaborator.
------------------------------------------------------------------ -/

/-- Claim C2 is contradicted by the code: when the `import explorerhat`
guard failed at startup, the names `span`, `zero`, `O3_volts` are
unbound, and the very first statement of the calibration block of every
iteration (`span.on()` or `span.off()`, source lines 97-100) raises an
uncaught `NameError`:  every loop iteration — including the first —
aborts the process instead of degrading to ozone-only logging.  (The
warning is printed, as the claim says; the "continues running
indefinitely" part is what fails.) -/
theorem missing_explorerhat_aborts (st : LoopState) (inp : Input) :
    stepE false st inp = Except.error PyErr.nameErr := rfl

/- ------------------------------------------------------------------
Claim C6 — diagnostic-byte re-send on empty read.
------------------------------------------------------------------ -/

/-- Claim C6 is contradicted by the code: the guard on source line 110
is `datline == b''`, but `datline` was already `.decode()`d to `str`
(line 109), and in Python 3 equality between a `str` and a `bytes`
value is `False` whatever their contents.  The re-send branch
`ser.write(b'd')` is therefore dead code: no iteration ever re-issues
the diagnostic byte, not even when the serial read returns no data
(`datline = ''`).  In particular the iteration with the empty decoded
line does not re-send. -/
theorem diag_resend_never_fires (st : LoopState) (inp : Input) :
    (step st inp).2.diagSent = false := rfl

/- ------------------------------------------------------------------
Claim C3 — Clock Reconciler contract.
------------------------------------------------------------------ -/

/-- Claim C3: on a record write with the file already open, the
predicted timestamp is `last_dt` plus the monotonic elapsed time since
the last confirmation (source line 147); the clock exception fires
exactly when the absolute difference between the prediction and the
freshly sampled wall-clock time exceeds 100 s (lines 166-169); and —
exception or not — the state is rebased: `last_dt` to the fresh
wall-clock sample and the elapsed-time origin to the current monotonic
instant (lines 190-193). -/
theorem clock_reconciler_contract (st : LoopState) (inp : Input)
    (h : st.outfileOpen = true) :
    (step st inp).2.predDt = st.lastDt + (inp.m1 - st.lastwriteMono) ∧
    ((step st inp).2.exception = true ↔ (100 : ℚ) < |inp.w3 - (step st inp).2.predDt|) ∧
    (step st inp).1.lastDt = inp.w3 ∧
    (step st inp).1.lastwriteMono = inp.m4 := by
  have h100 : ((time_exception_secs : ℕ) : ℚ) = 100 := by norm_num [time_exception_secs]
  refine ⟨?_, ?_, rfl, rfl⟩
  · simp [step, h]
  · simp [step, h, h100]

/-- Witness for `clock_reconciler_contract`: with the file open,
`last_dt = 1000`, monotonic elapsed 5 s and a wall clock reading 1200
(195 s ahead of the prediction 1005), the exception fires and the state
is rebased to 1200. -/
theorem clock_reconciler_contract_witness :
    (step ⟨1000, 0, 0, true⟩ ⟨1200, [], 5, 5, 0, 0, false, false, 0, 6, 1200, false, 6⟩).2.exception
      = true ∧
    (step ⟨1000, 0, 0, true⟩ ⟨1200, [], 5, 5, 0, 0, false, false, 0, 6, 1200, false, 6⟩).1.lastDt
      = 1200 := by
  obtain ⟨h1, h2, h3, _⟩ := clock_reconciler_contract ⟨1000, 0, 0, true⟩
    ⟨1200, [], 5, 5, 0, 0, false, false, 0, 6, 1200, false, 6⟩ rfl
  refine ⟨h2.mpr ?_, h3⟩
  rw [h1]
  norm_num

/- ------------------------------------------------------------------
Claim C10 — the exception branch suppresses the other closure reasons.
------------------------------------------------------------------ -/

/-- Claim C10: when the clock-exception branch fires, the `else` arm
holding the sentinel-file and date-rollover checks (source lines
179-188) is skipped: the sentinel file is not consumed that iteration
(it survives to be observed later), and the file is closed exactly once
— only one closure reason takes effect in any single iteration. -/
theorem exception_skips_rotation (st : LoopState) (inp : Input)
    (hex : (step st inp).2.exception = true) :
    (step st inp).2.sentinelRemoved = false ∧
    (step st inp).2.events.count FileEv.fclose = 1 ∧
    (step st inp).1.outfileOpen = false := by
  simp only [step] at hex ⊢
  rw [hex]
  refine ⟨rfl, ?_, rfl⟩
  cases st.outfileOpen <;>
    simp [List.count_append, List.count_cons, List.count_nil] <;>
    split_ifs <;> simp [List.count_append, List.count_cons, List.count_nil]

/-- Witness for `exception_skips_rotation`: file open, prediction 0,
wall clock 500 (500 s shift), sentinel file present — the exception
fires, the sentinel is not deleted, the file closes exactly once. -/
theorem exception_skips_rotation_witness :
    (step ⟨0, 0, 0, true⟩ ⟨0, [], 0, 0, 0, 0, false, false, 0, 0, 500, true, 0⟩).2.sentinelRemoved
      = false ∧
    (step ⟨0, 0, 0, true⟩ ⟨0, [], 0, 0, 0, 0, false, false, 0, 0, 500, true, 0⟩).2.events.count
      FileEv.fclose = 1 := by
  obtain ⟨h1, h2, _⟩ := exception_skips_rotation ⟨0, 0, 0, true⟩
    ⟨0, [], 0, 0, 0, 0, false, false, 0, 0, 500, true, 0⟩ (by simp [step, time_exception_secs]; norm_num)
  exact ⟨h1, h2⟩

/-- With the file already open, the predicted timestamp of an
iteration is `last_dt` plus the elapsed monotonic time (line 147). -/
theorem step_predDt_open (s : LoopState) (i : Input) (h : s.outfileOpen = true) :
    (step s i).2.predDt = s.lastDt + (i.m1 - s.lastwriteMono) := by
  simp [step, h]

/-- Every iteration writes exactly one data record. -/
theorem step_one_data (s : LoopState) (i : Input) :
    (step s i).2.events.count FileEv.dataLine = 1 := by
  rw [step_events_eq]
  split_ifs <;> rfl

/- ------------------------------------------------------------------
Claim C8 — ordering / monotonicity of predicted timestamps.
------------------------------------------------------------------ -/

/-- Claim C8 is false on the code: a backward wall-clock step smaller
than the 100 s tolerance lowers the next record's predicted timestamp
with no clock exception anywhere.  Concretely: record 1 is predicted at
1005; the wall clock then reads 955 (a 50 s backward step, under the
threshold, so no exception fires and the file stays open); after 1 s of
monotonic time, record 2 is predicted at 956 < 1005.  The decrease is
not "immediately after a clock-exception rebasing" — no exception ever
fired. -/
theorem pred_can_decrease_without_exception :
    (step ⟨1000, 0, 0, true⟩ ⟨1000, [], 5, 5, 0, 0, false, false, 0, 6, 955, false, 6⟩).2.exception
      = false ∧
    (step ⟨1000, 0, 0, true⟩ ⟨1000, [], 5, 5, 0, 0, false, false, 0, 6, 955, false, 6⟩).1.outfileOpen
      = true ∧
    (step ⟨1000, 0, 0, true⟩ ⟨1000, [], 5, 5, 0, 0, false, false, 0, 6, 955, false, 6⟩).2.predDt
      = 1005 ∧
    (step (step ⟨1000, 0, 0, true⟩ ⟨1000, [], 5, 5, 0, 0, false, false, 0, 6, 955, false, 6⟩).1
        ⟨1000, [], 7, 7, 0, 0, false, false, 0, 8, 956, false, 8⟩).2.predDt = 956 ∧
    (956 : ℚ) < 1005 := by
  have e1 : dateOf (1000 : ℚ) = 0 := by norm_num [dateOf, Int.floor_eq_iff]
  have e2 : dateOf (955 : ℚ) = 0 := by norm_num [dateOf, Int.floor_eq_iff]
  have e3 : dateOf (956 : ℚ) = 0 := by norm_num [dateOf, Int.floor_eq_iff]
  refine ⟨?_, ?_, ?_, ?_, by norm_num⟩
  · simp only [step]
    norm_num [time_exception_secs]
  · simp only [step]
    norm_num [time_exception_secs, e1, e2]
  · simp only [step]
    norm_num
  · simp only [step]
    norm_num [time_exception_secs, flush_after_secs, e1, e2]

/-- Claim C8 (amended): each iteration writes exactly one data record,
so records appear strictly in loop-iteration order; and the predicted
timestamp is non-decreasing from one record to the next provided the
file stayed open and the freshly sampled wall clock at the earlier
record was not behind its prediction — a backward wall-clock step
within the 100 s tolerance (wall sample below the prediction) can lower
the next prediction with no clock exception, which is the only change
the counterexample forces. -/
theorem pred_monotone_amended (st : LoopState) (i1 i2 : Input)
    (hopen : (step st i1).1.outfileOpen = true)
    (hw : (step st i1).2.predDt ≤ i1.w3)
    (hm : i1.m4 ≤ i2.m1) :
    (step st i1).2.predDt ≤ (step (step st i1).1 i2).2.predDt ∧
    (∀ (s : LoopState) (i : Input), (step s i).2.events.count FileEv.dataLine = 1) := by
  refine ⟨?_, step_one_data⟩
  have hpred2 := step_predDt_open (step st i1).1 i2 hopen
  have hLast : (step st i1).1.lastDt = i1.w3 := rfl
  have hMono : (step st i1).1.lastwriteMono = i1.m4 := rfl
  rw [hpred2, hLast, hMono]
  linarith

/-- Witness for `pred_monotone_amended`: wall clock agreeing with the
prediction (1005) and monotonic time advancing normally. -/
theorem pred_monotone_amended_witness :
    (step ⟨1000, 0, 0, true⟩ ⟨1000, [], 5, 5, 0, 0, false, false, 0, 6, 1005, false, 6⟩).2.predDt ≤
      (step (step ⟨1000, 0, 0, true⟩ ⟨1000, [], 5, 5, 0, 0, false, false, 0, 6, 1005, false, 6⟩).1
        ⟨1000, [], 7, 7, 0, 0, false, false, 0, 8, 1006, false, 8⟩).2.predDt := by
  have e1 : dateOf (1000 : ℚ) = 0 := by norm_num [dateOf, Int.floor_eq_iff]
  have e2 : dateOf (1005 : ℚ) = 0 := by norm_num [dateOf, Int.floor_eq_iff]
  refine (pred_monotone_amended ⟨1000, 0, 0, true⟩
    ⟨1000, [], 5, 5, 0, 0, false, false, 0, 6, 1005, false, 6⟩
    ⟨1000, [], 7, 7, 0, 0, false, false, 0, 8, 1006, false, 8⟩ ?_ ?_ (by norm_num)).1
  · simp only [step]
    norm_num [time_exception_secs, e1, e2]
  · simp only [step]
    norm_num

/- ------------------------------------------------------------------
Claim C7 — file-rotation lifecycle.
------------------------------------------------------------------ -/

theorem balStep_append (l1 l2 : List FileEv) (c : ℕ) :
    balStep c (l1 ++ l2) = (balStep c l1).bind fun c1 => balStep c1 l2 := by
  induction l1 generalizing c with
  | nil => simp [balStep]
  | cons e r ih =>
      cases e <;> simp only [List.cons_append, balStep] <;>
        first
          | exact ih _
          | (split_ifs <;> simp [ih])

/-- One iteration takes a legal trace from its incoming open-count to
its outgoing one. -/
theorem step_bal (s : LoopState) (i : Input) :
    balStep (cond s.outfileOpen 1 0) (step s i).2.events
      = some (cond (step s i).1.outfileOpen 1 0) := by
  cases hb : s.outfileOpen <;>
    simp only [step, hb, Bool.not_true, Bool.not_false, cond_true, cond_false] <;>
    split_ifs <;> first | rfl | contradiction

/-- Claim C7: (1) starting from the initial CLOSED state, the whole
file-event trace of any run is legal — at no point are two log files
open at once — and the open-count at the end matches the
`outfile_open` flag; (2) on any record attempt with no file open,
exactly one file is opened, and its header line is written before the
data line (and no further open happens that iteration); (3) with a
file open, no iteration opens another. -/
theorem rotation_file_lifecycle :
    (∀ (m0 m0' : ℚ) (inps : List Input),
      balStep 0 (runEvents (initState m0 m0') inps)
        = some (cond (runState (initState m0 m0') inps).outfileOpen 1 0)) ∧
    (∀ (s : LoopState) (i : Input), s.outfileOpen = false →
      ∃ t, (step s i).2.events
          = FileEv.fopen (logFileName i.wOpen) :: FileEv.headerLine :: FileEv.dataLine :: t ∧
        ∀ nm, FileEv.fopen nm ∉ t) ∧
    (∀ (s : LoopState) (i : Input), s.outfileOpen = true →
      ∀ nm, FileEv.fopen nm ∉ (step s i).2.events) := by
  have hrun : ∀ (inps : List Input) (s : LoopState),
      balStep (cond s.outfileOpen 1 0) (runEvents s inps)
        = some (cond (runState s inps).outfileOpen 1 0) := by
    intro inps
    induction inps with
    | nil => intro s; simp [runEvents, runState, balStep]
    | cons i is ih =>
        intro s
        simp only [runEvents, runState]
        rw [balStep_append, step_bal]
        exact ih (step s i).1
  refine ⟨fun m0 m0' inps => hrun inps (initState m0 m0'), ?_, ?_⟩
  · intro s i h
    refine ⟨(if decide ((flush_after_secs : ℚ) < 0) then [FileEv.flushBuf] else []) ++
      (if decide ((time_exception_secs : ℚ) < |i.w3 - (i.wOpenB + 0)|) then
        [FileEv.excLine, FileEv.fclose]
      else if i.sentinel || decide (dateOf i.wOpenB < dateOf i.w3) then
        [FileEv.fclose] else []), ?_, ?_⟩
    · simp only [step, h, Bool.not_false, cond_true, if_true]
      rfl
    · intro nm
      split_ifs <;> simp
  · intro s i h nm
    simp only [step, h, Bool.not_true]
    split_ifs <;> first | contradiction | simp

/-- Witness for `rotation_file_lifecycle`: from the startup CLOSED
state, the first iteration opens one file and writes the header before
the data line. -/
theorem rotation_file_lifecycle_witness :
    ∃ t, (step (initState 0 0) ⟨0, [], 0, 0, 0, 0, false, false, 0, 0, 0, false, 0⟩).2.events
        = FileEv.fopen (logFileName 0) :: FileEv.headerLine :: FileEv.dataLine :: t ∧
      ∀ nm, FileEv.fopen nm ∉ t :=
  rotation_file_lifecycle.2.1 (initState 0 0)
    ⟨0, [], 0, 0, 0, 0, false, false, 0, 0, 0, false, 0⟩ rfl

/- ------------------------------------------------------------------
Parser helper lemmas.
------------------------------------------------------------------ -/

theorem digitChar_isDigit (m : ℕ) (h : m < 10) : (Nat.digitChar m).isDigit = true := by
  interval_cases m <;> decide

theorem natDigsF_digits (fuel : ℕ) :
    ∀ (n : ℕ), ∀ c ∈ natDigsF fuel n, c.isDigit = true := by
  induction fuel with
  | zero => intro n c hc; simp [natDigsF] at hc
  | succ f ih =>
      intro n c hc
      simp only [natDigsF] at hc
      split at hc
      · simp at hc
      · rcases List.mem_append.1 hc with h1 | h1
        · exact ih _ c h1
        · rcases List.mem_singleton.1 h1 with rfl
          exact digitChar_isDigit _ (Nat.mod_lt _ (by norm_num))

/-- Any rendered float is a numeric string. -/
theorem numericStr_pyStrFloat (q : ℚ) : numericStr (pyStrFloat q) := by
  have hds : ∀ c ∈ padLeft (natDigsF ((q * (10 : ℚ) ^ fracLen q 400).num.natAbs)
      ((q * (10 : ℚ) ^ fracLen q 400).num.natAbs)) (fracLen q 400), c.isDigit = true := by
    intro c hc
    simp only [padLeft] at hc
    rcases List.mem_append.1 hc with h1 | h1
    · rcases (List.mem_replicate.1 h1).2 with rfl; decide
    · exact natDigsF_digits _ _ c h1
  constructor
  · simp only [pyStrFloat]
    split_ifs <;> simp
  · intro c hc
    simp only [pyStrFloat] at hc
    split_ifs at hc <;>
      [skip; skip; exact ?_; exact ?_] <;>
      try rcases List.mem_cons.1 hc with rfl | hc
    case _ => exact Or.inr (Or.inr rfl)
    case _ =>
      rcases List.mem_append.1 hc with h1 | h1
      · exact Or.inl (hds c (List.take_subset _ _ h1))
      · rcases List.mem_cons.1 h1 with rfl | h2
        · exact Or.inr (Or.inl rfl)
        · rcases List.mem_singleton.1 h2 with rfl; exact Or.inl (by decide)
    case _ => exact Or.inr (Or.inr rfl)
    case _ =>
      rcases List.mem_append.1 hc with h1 | h1
      · exact Or.inl (hds c (List.take_subset _ _ h1))
      · rcases List.mem_cons.1 h1 with rfl | h2
        · exact Or.inr (Or.inl rfl)
        · exact Or.inl (hds c (List.drop_subset _ _ h2))
    case _ =>
      rcases List.mem_append.1 hc with h1 | h1
      · exact Or.inl (hds c (List.take_subset _ _ h1))
      · rcases List.mem_cons.1 h1 with rfl | h2
        · exact Or.inr (Or.inl rfl)
        · rcases List.mem_singleton.1 h2 with rfl; exact Or.inl (by decide)
    case _ =>
      rcases List.mem_append.1 hc with h1 | h1
      · exact Or.inl (hds c (List.take_subset _ _ h1))
      · rcases List.mem_cons.1 h1 with rfl | h2
        · exact Or.inr (Or.inl rfl)
        · exact Or.inl (hds c (List.drop_subset _ _ h2))

/-- Equation: `serialvector` written out: one `parseField` per anchor, the ozone
conversion applied to field 0. -/
theorem serialvector_unfold (d : Str) :
    serialvector d =
      ozoneConv (parseField d (lit ("05;17H")) (lit ("ppm"))) ::
      [parseField d (lit ("07;12H")) [], parseField d (lit ("07;25H")) [],
       parseField d (lit ("07;38H")) [], parseField d (lit ("07;56H")) [],
       parseField d (lit ("08;11H")) (lit ("C")), parseField d (lit ("09;11H")) (lit ("ATM")),
       parseField d (lit ("10;11H")) [], parseField d (lit ("10;32H")) []] := rfl

/- ------------------------------------------------------------------
Claim C4 — Frame Parser totality.
------------------------------------------------------------------ -/

/-- Claim C4: the Frame Parser is total — for every input line
(empty, truncated, anchor-free, anything) it returns exactly nine
fields (it is a pure total function, so no exception can escape: each
per-anchor `try` body and the ozone conversion are modelled by total
functions whose failure cases produce the defaults), and field 0 is
always either a numeric string or the literal `'NaN'`. -/
theorem frame_parser_total (d : Str) :
    (serialvector d).length = 9 ∧
    (numericStr ((serialvector d).headI) ∨ (serialvector d).headI = lit ("NaN")) := by
  rw [serialvector_unfold]
  refine ⟨rfl, ?_⟩
  show numericStr (ozoneConv _) ∨ ozoneConv _ = lit ("NaN")
  unfold ozoneConv
  cases hq : pyFloat? (parseField d (lit ("05;17H")) (lit ("ppm"))) with
  | none => exact Or.inr rfl
  | some q => exact Or.inl (numericStr_pyStrFloat (1000 * q))

/- ------------------------------------------------------------------
Claim C5 — record shape and sentinel policy.
------------------------------------------------------------------ -/

/-- Claim C5 is false on the code: on an empty serial line the record
does have 12 fields, but the `fault` field (record index 4, instrument
index 1) — whose anchor is absent — is the empty string `''`, not the
`'NaN'` marker: only field 0 (ozone) is ever set to `'NaN'`; fields
1-8 default to `''` (source line 115: `serialvector = [''] * 9`). -/
theorem record_fault_default_not_nan :
    (step ⟨0, 0, 0, true⟩ ⟨0, [], 0, 0, 0, 0, false, false, 0, 0, 0, false, 0⟩).2.record.length
      = 12 ∧
    (step ⟨0, 0, 0, true⟩ ⟨0, [], 0, 0, 0, 0, false, false, 0, 0, 0, false, 0⟩).2.record.getD 4 [' ']
      = [] ∧
    ([] : Str) ≠ lit ("NaN") :=
  ⟨rfl, rfl, by decide⟩

/-- Claim C5 (amended): every record has exactly 12 fields — the three
base fields followed by the nine instrument fields, in fixed order,
never omitted; an instrument field whose anchor is absent is
represented by the explicit *empty string* (fields 1-8) while the
ozone field (record index 3) is the one represented by `'NaN'` when
missing or unparseable. -/
theorem record_twelve_fields (st : LoopState) (inp : Input) :
    (step st inp).2.record.length = 12 ∧
    (step st inp).2.record =
      [fmtTime (step st inp).2.predDt,
       natStr ((cond inp.spanOn 1 0) * 2 + cond inp.zeroOn 1 0),
       pyStrFloat inp.volts] ++ serialvector inp.datline ∧
    (∀ d : Str, pyFloat? (parseField d (lit ("05;17H")) (lit ("ppm"))) = none →
      (serialvector d).headI = lit ("NaN")) ∧
    (∀ (d : Str) (j : ℕ), 1 ≤ j → j ≤ 8 →
      pyFind d (anchorOf (position.getD j [])) = -1 →
      (serialvector d).getD j [' '] = []) := by
  refine ⟨rfl, rfl, ?_, ?_⟩
  · intro d hq
    rw [serialvector_unfold]
    show ozoneConv _ = _
    unfold ozoneConv
    rw [hq]
  · intro d j h1 h8 hfind
    interval_cases j <;>
      · simp only [position, List.getD_cons_succ, List.getD_cons_zero] at hfind
        rw [serialvector_unfold]
        simp only [List.getD_cons_succ, List.getD_cons_zero]
        simp [parseField, hfind]

/-- Witness for `record_twelve_fields`: the empty line has no anchors,
so the `fault` field (instrument index 1) stays `''` and the record
still has all 12 fields. -/
theorem record_twelve_fields_witness :
    (step ⟨0, 0, 0, true⟩ ⟨0, [], 0, 0, 0, 0, false, false, 0, 0, 0, false, 0⟩).2.record.length
      = 12 ∧
    (serialvector []).getD 1 [' '] = [] :=
  ⟨(record_twelve_fields ⟨0, 0, 0, true⟩ ⟨0, [], 0, 0, 0, 0, false, false, 0, 0, 0, false, 0⟩).1,
   (record_twelve_fields ⟨0, 0, 0, true⟩
      ⟨0, [], 0, 0, 0, 0, false, false, 0, 0, 0, false, 0⟩).2.2.2 [] 1
      (by norm_num) (by norm_num) rfl⟩

/- ------------------------------------------------------------------
Find-machinery lemmas for the round-trip proof.
------------------------------------------------------------------ -/

theorem findAux_here (l n : Str) (k : ℕ) (h : n <+: l) : pyFindAux l n k = some k := by
  cases l with
  | nil =>
      rcases List.prefix_nil.1 h with rfl
      simp [pyFindAux]
  | cons c cs =>
      simp [pyFindAux, List.isPrefixOf_iff_prefix.2 h]

theorem cons_prefix_head {a b : Char} {n l : Str} (h : (a :: n) <+: (b :: l)) : a = b :=
  (List.cons_prefix_cons.1 h).1

theorem findAux_skip (b rest : Str) (c0 : Char) (tn : Str) (k : ℕ)
    (hb : ∀ c ∈ b, c ≠ c0) :
    pyFindAux (b ++ rest) (c0 :: tn) k = pyFindAux rest (c0 :: tn) (k + b.length) := by
  induction b generalizing k with
  | nil => simp
  | cons c cs ih =>
      have hc : c ≠ c0 := hb c (List.mem_cons_self c cs)
      have hnp : ¬ (c0 :: tn).isPrefixOf (c :: (cs ++ rest)) := by
        rw [List.isPrefixOf_iff_prefix]
        intro hp
        exact hc (cons_prefix_head hp).symm
      simp only [List.cons_append, pyFindAux, List.append_eq]
      rw [if_neg hnp, ih (k + 1) (fun c h => hb c (List.mem_cons_of_mem _ h))]
      congr 1
      simp only [List.length_cons]
      omega

theorem findAux_none (l : Str) (c0 : Char) (tn : Str) (k : ℕ)
    (h : ∀ c ∈ l, c ≠ c0) : pyFindAux l (c0 :: tn) k = none := by
  induction l generalizing k with
  | nil => simp [pyFindAux]
  | cons c cs ih =>
      have hc : c ≠ c0 := h c (List.mem_cons_self c cs)
      have hnp : ¬ (c0 :: tn).isPrefixOf (c :: cs) := by
        rw [List.isPrefixOf_iff_prefix]
        intro hp
        exact hc (cons_prefix_head hp).symm
      simp only [pyFindAux, List.append_eq]
      rw [if_neg hnp]
      exact ih (k + 1) (fun c hm => h c (List.mem_cons_of_mem _ hm))

theorem findAux_empty_needle (l : Str) : pyFindAux l [] 0 = some 0 := by
  cases l <;> simp [pyFindAux, List.isPrefixOf]

/-- Skip one foreign block `'\x1b' :: ta ++ s`: the needle starts with
the escape character, has the same length as the block's anchor but
differs from it, and neither the anchor tail nor the payload contains
another escape character. -/
theorem findAux_skip_block (ta s rest tn : Str) (k : ℕ)
    (hlen : ta.length = tn.length)
    (hne : ta ≠ tn)
    (hta : ∀ c ∈ ta, c ≠ '\x1b') (hs : ∀ c ∈ s, c ≠ '\x1b') :
    pyFindAux (('\x1b' :: ta ++ s) ++ rest) ('\x1b' :: tn) k
      = pyFindAux rest ('\x1b' :: tn) (k + (ta.length + 1 + s.length)) := by
  have hshape : ('\x1b' :: ta ++ s) ++ rest = '\x1b' :: ((ta ++ s) ++ rest) := by
    simp
  rw [hshape]
  have hnp : ¬ ('\x1b' :: tn).isPrefixOf ('\x1b' :: ((ta ++ s) ++ rest)) := by
    rw [List.isPrefixOf_iff_prefix]
    intro hp
    have htn : tn <+: (ta ++ s) ++ rest := (List.cons_prefix_cons.1 hp).2
    have : tn = ((ta ++ s) ++ rest).take tn.length := List.prefix_iff_eq_take.1 htn
    rw [List.append_assoc, List.take_left' hlen] at this
    exact hne this.symm
  simp only [pyFindAux, List.append_eq]
  rw [if_neg hnp]
  rw [findAux_skip (ta ++ s) rest '\x1b' tn (k + 1)
    (fun c hm => (List.mem_append.1 hm).elim (hta c) (hs c))]
  congr 1
  simp only [List.length_append]
  omega

/- ------------------------------------------------------------------
Character-class and strip lemmas.
------------------------------------------------------------------ -/

/-- A digit / dot / minus character differs from any character that is
not a digit, not a dot and not a minus. -/
theorem numChar_ne {c : Char} (h : c.isDigit = true ∨ c = '.' ∨ c = '-')
    (x : Char) (hx : x.isDigit = false) (hd : x ≠ '.') (hm : x ≠ '-') : c ≠ x := by
  rcases h with h | h | h
  · intro he; rw [he] at h; rw [h] at hx; cases hx
  · rw [h]; exact fun he => hd he.symm
  · rw [h]; exact fun he => hm he.symm

/-- Characters of a numeric string are never whitespace. -/
theorem numChar_not_ws {c : Char} (h : c.isDigit = true ∨ c = '.' ∨ c = '-') :
    isWs c = false := by
  rcases h with h | h | h
  · by_contra hw
    have hw' : isWs c = true := by revert hw; cases isWs c <;> simp
    have : c = ' ' ∨ c = '\t' ∨ c = '\n' ∨ c = '\x0d' ∨ c = '\x0b' ∨ c = '\x0c' := by
      revert hw'; simp [isWs]; tauto
    rcases this with rfl | rfl | rfl | rfl | rfl | rfl <;> simp_all
  · rw [h]; decide
  · rw [h]; decide

theorem dropWhile_id_of_head (l : Str) (c : Char) (t : Str) (hl : l = c :: t)
    (hc : isWs c = false) : l.dropWhile isWs = l := by
  rw [hl, List.dropWhile_cons, hc]
  simp

theorem rstrip_id_of_getLast (l : Str) (h : ∃ c, l.getLast? = some c ∧ isWs c = false) :
    l.reverse.dropWhile isWs = l.reverse := by
  obtain ⟨c, h1, h2⟩ := h
  have hh : l.reverse.head? = some c := by rw [List.head?_reverse]; exact h1
  cases hr : l.reverse with
  | nil => rfl
  | cons d t =>
      rw [hr] at hh
      injection hh with hdc
      rw [List.dropWhile_cons, hdc, h2]
      simp

/-- A string starting and ending in non-whitespace is unchanged by
`strip()`. -/
theorem pyStrip_id (l : Str) (c : Char) (t : Str) (hl : l = c :: t) (hc : isWs c = false)
    (hlast : ∃ c0, l.getLast? = some c0 ∧ isWs c0 = false) : pyStrip l = l := by
  rw [pyStrip, dropWhile_id_of_head l c t hl hc, rstrip_id_of_getLast l hlast,
    List.reverse_reverse]

theorem getLast?_good (v : Str) (hv : numericStr v) :
    ∃ c, v.getLast? = some c ∧ isWs c = false := by
  obtain ⟨hne, hall⟩ := hv
  have hrne : v.reverse ≠ [] := by simpa using hne
  cases hr : v.reverse with
  | nil => exact absurd hr hrne
  | cons c t =>
      refine ⟨c, ?_, ?_⟩
      · rw [← List.head?_reverse, hr]; rfl
      · have hm : c ∈ v := by
          rw [← List.mem_reverse, hr]; exact List.mem_cons_self c t
        exact numChar_not_ws (hall c hm)

theorem getLast?_ext (X Y : Str) (h : ∃ c, Y.getLast? = some c ∧ isWs c = false) :
    ∃ c, (X ++ Y).getLast? = some c ∧ isWs c = false := by
  obtain ⟨c, h1, h2⟩ := h
  refine ⟨c, ?_, h2⟩
  rw [List.getLast?_append, h1]
  rfl

/- ------------------------------------------------------------------
Synthetic instrument lines (round-trip construction).
------------------------------------------------------------------ -/

theorem mkSeg_nil (v : Str) : mkSeg v [] = v := by simp [mkSeg]

theorem mkSeg_noEsc (v u : Str) (hv : numericStr v) (hu : ∀ c ∈ u, c ≠ '\x1b') :
    ∀ c ∈ mkSeg v u, c ≠ '\x1b' := by
  intro c hc
  by_cases h : u = []
  · rw [h, mkSeg_nil] at hc
    exact numChar_ne (hv.2 c hc) _ (by decide) (by decide) (by decide)
  · rw [mkSeg, if_neg h] at hc
    rcases List.mem_append.1 hc with h1 | h1
    · exact numChar_ne (hv.2 c h1) _ (by decide) (by decide) (by decide)
    · rcases List.mem_cons.1 h1 with rfl | h2
      · decide
      · exact hu c h2

/-- Skip one block of the synthetic line while searching for the
anchor of a different field. -/
theorem findAux_skip_blockOf (loc v u rest tn : Str) (k : ℕ)
    (hlen : ('[' :: (loc ++ ['\x00'])).length = tn.length)
    (hne : '[' :: (loc ++ ['\x00']) ≠ tn)
    (hloc : ∀ c ∈ '[' :: (loc ++ ['\x00']), c ≠ '\x1b')
    (hv : numericStr v) (hu : ∀ c ∈ u, c ≠ '\x1b') :
    pyFindAux (blockOf loc v u ++ rest) ('\x1b' :: tn) k
      = pyFindAux rest ('\x1b' :: tn) (k + (blockOf loc v u).length) := by
  have hshape : blockOf loc v u ++ rest
      = ('\x1b' :: ('[' :: (loc ++ ['\x00'])) ++ mkSeg v u) ++ rest := by
    simp [blockOf, anchorOf]
  rw [hshape, findAux_skip_block _ _ _ _ _ hlen hne hloc (mkSeg_noEsc v u hv hu)]
  congr 1
  simp [blockOf, anchorOf, List.length_append]
  omega

/-- The anchor of the block at the head of the remaining line is found
exactly there. -/
theorem findAux_at_blockOf (loc v u rest : Str) (k : ℕ) :
    pyFindAux (blockOf loc v u ++ rest) (anchorOf loc) k = some k := by
  apply findAux_here
  rw [blockOf, List.append_assoc]
  exact List.prefix_append _ _

/-- Master round-trip lemma for one field: if the anchor of `loc` is
first found at index `p` of the line, and what follows the anchor is
the embedded segment `mkSeg v u` (value plus unit token) followed by
the rest `R` of the line (either empty or starting with the next
anchor), then `parseField` recovers exactly `v`. -/
theorem parseField_embed (L loc u v R : Str) (p : ℕ)
    (hv : numericStr v)
    (huE : ∀ c ∈ u, c ≠ '\x1b')
    (huh : ∀ c0, u.head? = some c0 → (c0 ≠ ' ' ∧ ∀ c ∈ v, c ≠ c0))
    (hfind : pyFindAux L (anchorOf loc) 0 = some p)
    (hdrop : L.drop (p + 9) = mkSeg v u ++ R)
    (hR : R = [] ∨ ∃ loc2 r2, R = anchorOf loc2 ++ r2)
    (hlast : ∃ c, (mkSeg v u ++ R).getLast? = some c ∧ isWs c = false) :
    parseField L loc u = v := by
  have hvsp : ∀ c ∈ v, c ≠ ' ' :=
    fun c hc => numChar_ne (hv.2 c hc) ' ' (by decide) (by decide) (by decide)
  obtain ⟨c1, t1, hv1⟩ := List.exists_cons_of_ne_nil hv.1
  have hc1 : isWs c1 = false :=
    numChar_not_ws (hv.2 c1 (hv1 ▸ List.mem_cons_self _ _))
  have hstrip : pyStrip (mkSeg v u ++ R) = mkSeg v u ++ R := by
    by_cases hu0 : u = []
    · rw [hu0, mkSeg_nil] at hlast ⊢
      rw [hv1] at hlast ⊢
      exact pyStrip_id _ c1 (t1 ++ R) (by simp) hc1 hlast
    · rw [mkSeg, if_neg hu0] at hlast ⊢
      rw [hv1] at hlast ⊢
      exact pyStrip_id _ c1 (t1 ++ ' ' :: u ++ R) (by simp) hc1 hlast
  have hsplit : splitHead (mkSeg v u ++ R) ('\x1b' :: ['[']) = mkSeg v u := by
    rcases hR with rfl | ⟨loc2, r2, rfl⟩
    · rw [List.append_nil, splitHead,
        findAux_none _ _ _ _ (mkSeg_noEsc v u hv huE)]
    · rw [splitHead, findAux_skip (mkSeg v u) _ _ _ 0 (mkSeg_noEsc v u hv huE),
        findAux_here _ _ _ ?hpref]
      · simp [List.take_left]
      case hpref =>
        rw [anchorOf, List.cons_append, List.cons_append]
        exact List.cons_prefix_cons.2 ⟨rfl, List.cons_prefix_cons.2 ⟨rfl, List.nil_prefix⟩⟩
  have hfind' : pyFind L (anchorOf loc) = (p : ℤ) := by rw [pyFind, hfind]
  have hgt : (p : ℤ) > -1 :=
    lt_of_lt_of_le (by norm_num) (Int.natCast_nonneg p)
  have ht : ((p : ℤ)).toNat = p := Int.toNat_natCast p
  simp only [parseField, hfind']
  rw [if_pos hgt, ht, hdrop, hstrip, hsplit]
  by_cases hu0 : u = []
  · subst hu0
    rw [mkSeg_nil]
    have h0 : pyFind v [] = (0 : ℤ) := by
      rw [pyFind, findAux_empty_needle]
      rfl
    rw [h0, if_pos (by norm_num : (0 : ℤ) > -1), splitHead, findAux_none _ _ _ _ hvsp]
  · obtain ⟨c0, u', hu⟩ := List.exists_cons_of_ne_nil hu0
    subst hu
    obtain ⟨hc0sp, hc0v⟩ := huh c0 rfl
    rw [mkSeg, if_neg hu0]
    have hnp1 : ¬ (c0 :: u').isPrefixOf (' ' :: (c0 :: u')) := by
      rw [List.isPrefixOf_iff_prefix]
      intro hp
      exact hc0sp (cons_prefix_head hp)
    have hfu : pyFindAux (v ++ ' ' :: (c0 :: u')) (c0 :: u') 0 = some (0 + v.length + 1) := by
      rw [findAux_skip v _ _ _ 0 hc0v]
      simp only [pyFindAux, List.append_eq]
      rw [if_neg hnp1, if_pos (List.isPrefixOf_iff_prefix.2 List.prefix_rfl)]
    have hfsp : pyFindAux (v ++ ' ' :: (c0 :: u')) [' '] 0 = some (0 + v.length) := by
      rw [findAux_skip v _ _ _ 0 hvsp]
      exact findAux_here _ _ _ (List.cons_prefix_cons.2 ⟨rfl, List.nil_prefix⟩)
    have hfu' : pyFind (v ++ ' ' :: (c0 :: u')) (c0 :: u') = ((0 + v.length + 1 : ℕ) : ℤ) := by
      rw [pyFind, hfu]
    rw [hfu', if_pos (lt_of_lt_of_le (by norm_num) (Int.natCast_nonneg _)), splitHead, hfsp]
    simp [List.take_left]

theorem anchorOf_cons (loc : Str) :
    anchorOf loc = '\x1b' :: ('[' :: (loc ++ ['\x00'])) := rfl

theorem findAux_at_blockOf' (loc v u rest : Str) (k : ℕ) :
    pyFindAux (blockOf loc v u ++ rest) ('\x1b' :: ('[' :: (loc ++ ['\x00']))) k = some k := by
  rw [← anchorOf_cons]
  exact findAux_at_blockOf loc v u rest k

theorem drop_app (l1 l2 : Str) (n : ℕ) : (l1 ++ l2).drop (l1.length + n) = l2.drop n := by
  induction l1 with
  | nil => simp
  | cons c cs ih =>
      rw [List.cons_append, List.length_cons,
        show cs.length + 1 + n = (cs.length + n) + 1 from by omega, List.drop_succ_cons]
      exact ih

theorem anchorOf_length (loc : Str) (h6 : loc.length = 6) : (anchorOf loc).length = 9 := by
  simp [anchorOf, h6]

theorem drop_blockOf (loc v u R : Str) (h6 : loc.length = 6) :
    (blockOf loc v u ++ R).drop 9 = mkSeg v u ++ R := by
  rw [blockOf, List.append_assoc]
  exact List.drop_left' (anchorOf_length loc h6)

theorem drop_blockOf' (loc v u : Str) (h6 : loc.length = 6) :
    (blockOf loc v u).drop 9 = mkSeg v u := by
  rw [blockOf]
  exact List.drop_left' (anchorOf_length loc h6)

theorem getLast?_good_mkSeg_nil (v : Str) (hv : numericStr v) :
    ∃ c, (mkSeg v []).getLast? = some c ∧ isWs c = false := by
  rw [mkSeg_nil]
  exact getLast?_good v hv

theorem getLast?_good_blockOf (loc v : Str) (hv : numericStr v) :
    ∃ c, (blockOf loc v []).getLast? = some c ∧ isWs c = false := by
  rw [blockOf]
  exact getLast?_ext _ _ (getLast?_good_mkSeg_nil v hv)


theorem roundtrip_field0 (v0 v1 v2 v3 v4 v5 v6 v7 v8 : Str)
    (h0 : numericStr v0) (h1 : numericStr v1) (h2 : numericStr v2) (h3 : numericStr v3) (h4 : numericStr v4) (h5 : numericStr v5) (h6 : numericStr v6) (h7 : numericStr v7) (h8 : numericStr v8) :
    parseField (mkLine9 v0 v1 v2 v3 v4 v5 v6 v7 v8) (lit ("05;17H")) (lit ("ppm")) = v0 := by
  refine parseField_embed _ _ _ _ (blockOf (lit ("07;12H")) v1 [] ++ (blockOf (lit ("07;25H")) v2 [] ++ (blockOf (lit ("07;38H")) v3 [] ++ (blockOf (lit ("07;56H")) v4 [] ++ (blockOf (lit ("08;11H")) v5 (lit ("C")) ++ (blockOf (lit ("09;11H")) v6 (lit ("ATM")) ++ (blockOf (lit ("10;11H")) v7 [] ++ (blockOf (lit ("10;32H")) v8 [])))))))) (0) h0 (by decide) ?_ ?_ ?_ ?_ ?_
  · intro c0 h
    have h' : some 'p' = some c0 := h
    injection h' with h2
    subst h2
    refine ⟨by decide, fun c hc => numChar_ne (h0.2 c hc) 'p' (by decide) (by decide) (by decide)⟩
  · rw [anchorOf_cons, mkLine9]
    exact findAux_at_blockOf' _ _ _ _ _
  · rw [mkLine9, show (0 : ℕ) + 9 = 9 from rfl]
    exact drop_blockOf _ _ _ _ rfl
  · exact Or.inr ⟨lit ("07;12H"), mkSeg v1 [] ++ (blockOf (lit ("07;25H")) v2 [] ++ (blockOf (lit ("07;38H")) v3 [] ++ (blockOf (lit ("07;56H")) v4 [] ++ (blockOf (lit ("08;11H")) v5 (lit ("C")) ++ (blockOf (lit ("09;11H")) v6 (lit ("ATM")) ++ (blockOf (lit ("10;11H")) v7 [] ++ (blockOf (lit ("10;32H")) v8 []))))))), by rw [blockOf, List.append_assoc]⟩
  · exact getLast?_ext _ _ (getLast?_ext _ _ (getLast?_ext _ _ (getLast?_ext _ _ (getLast?_ext _ _ (getLast?_ext _ _ (getLast?_ext _ _ (getLast?_ext _ _ (getLast?_good_blockOf _ _ h8))))))))


theorem roundtrip_field1 (v0 v1 v2 v3 v4 v5 v6 v7 v8 : Str)
    (h0 : numericStr v0) (h1 : numericStr v1) (h2 : numericStr v2) (h3 : numericStr v3) (h4 : numericStr v4) (h5 : numericStr v5) (h6 : numericStr v6) (h7 : numericStr v7) (h8 : numericStr v8) :
    parseField (mkLine9 v0 v1 v2 v3 v4 v5 v6 v7 v8) (lit ("07;12H")) [] = v1 := by
  refine parseField_embed _ _ _ _ (blockOf (lit ("07;25H")) v2 [] ++ (blockOf (lit ("07;38H")) v3 [] ++ (blockOf (lit ("07;56H")) v4 [] ++ (blockOf (lit ("08;11H")) v5 (lit ("C")) ++ (blockOf (lit ("09;11H")) v6 (lit ("ATM")) ++ (blockOf (lit ("10;11H")) v7 [] ++ (blockOf (lit ("10;32H")) v8 []))))))) (0 + (blockOf (lit ("05;17H")) v0 (lit ("ppm"))).length) h1 (by decide) ?_ ?_ ?_ ?_ ?_
  · exact fun c0 h => absurd h (by simp)
  · rw [anchorOf_cons, mkLine9]
    rw [findAux_skip_blockOf (lit ("05;17H")) v0 (lit ("ppm")) _ ('[' :: (lit ("07;12H") ++ ['\x00'])) _ rfl (by decide) (by decide) h0 (by decide)]
    exact findAux_at_blockOf' _ _ _ _ _
  · rw [mkLine9, show (0 + (blockOf (lit ("05;17H")) v0 (lit ("ppm"))).length) + 9 = (blockOf (lit ("05;17H")) v0 (lit ("ppm"))).length + (9) from by omega]
    rw [drop_app]
    exact drop_blockOf _ _ _ _ rfl
  · exact Or.inr ⟨lit ("07;25H"), mkSeg v2 [] ++ (blockOf (lit ("07;38H")) v3 [] ++ (blockOf (lit ("07;56H")) v4 [] ++ (blockOf (lit ("08;11H")) v5 (lit ("C")) ++ (blockOf (lit ("09;11H")) v6 (lit ("ATM")) ++ (blockOf (lit ("10;11H")) v7 [] ++ (blockOf (lit ("10;32H")) v8 [])))))), by rw [blockOf, List.append_assoc]⟩
  · exact getLast?_ext _ _ (getLast?_ext _ _ (getLast?_ext _ _ (getLast?_ext _ _ (getLast?_ext _ _ (getLast?_ext _ _ (getLast?_ext _ _ (getLast?_good_blockOf _ _ h8)))))))


theorem roundtrip_field2 (v0 v1 v2 v3 v4 v5 v6 v7 v8 : Str)
    (h0 : numericStr v0) (h1 : numericStr v1) (h2 : numericStr v2) (h3 : numericStr v3) (h4 : numericStr v4) (h5 : numericStr v5) (h6 : numericStr v6) (h7 : numericStr v7) (h8 : numericStr v8) :
    parseField (mkLine9 v0 v1 v2 v3 v4 v5 v6 v7 v8) (lit ("07;25H")) [] = v2 := by
  refine parseField_embed _ _ _ _ (blockOf (lit ("07;38H")) v3 [] ++ (blockOf (lit ("07;56H")) v4 [] ++ (blockOf (lit ("08;11H")) v5 (lit ("C")) ++ (blockOf (lit ("09;11H")) v6 (lit ("ATM")) ++ (blockOf (lit ("10;11H")) v7 [] ++ (blockOf (lit ("10;32H")) v8 [])))))) (0 + (blockOf (lit ("05;17H")) v0 (lit ("ppm"))).length + (blockOf (lit ("07;12H")) v1 []).length) h2 (by decide) ?_ ?_ ?_ ?_ ?_
  · exact fun c0 h => absurd h (by simp)
  · rw [anchorOf_cons, mkLine9]
    rw [findAux_skip_blockOf (lit ("05;17H")) v0 (lit ("ppm")) _ ('[' :: (lit ("07;25H") ++ ['\x00'])) _ rfl (by decide) (by decide) h0 (by decide)]
    rw [findAux_skip_blockOf (lit ("07;12H")) v1 [] _ ('[' :: (lit ("07;25H") ++ ['\x00'])) _ rfl (by decide) (by decide) h1 (by decide)]
    exact findAux_at_blockOf' _ _ _ _ _
  · rw [mkLine9, show (0 + (blockOf (lit ("05;17H")) v0 (lit ("ppm"))).length + (blockOf (lit ("07;12H")) v1 []).length) + 9 = (blockOf (lit ("05;17H")) v0 (lit ("ppm"))).length + ((blockOf (lit ("07;12H")) v1 []).length + (9)) from by omega]
    rw [drop_app]
    rw [drop_app]
    exact drop_blockOf _ _ _ _ rfl
  · exact Or.inr ⟨lit ("07;38H"), mkSeg v3 [] ++ (blockOf (lit ("07;56H")) v4 [] ++ (blockOf (lit ("08;11H")) v5 (lit ("C")) ++ (blockOf (lit ("09;11H")) v6 (lit ("ATM")) ++ (blockOf (lit ("10;11H")) v7 [] ++ (blockOf (lit ("10;32H")) v8 []))))), by rw [blockOf, List.append_assoc]⟩
  · exact getLast?_ext _ _ (getLast?_ext _ _ (getLast?_ext _ _ (getLast?_ext _ _ (getLast?_ext _ _ (getLast?_ext _ _ (getLast?_good_blockOf _ _ h8))))))


theorem roundtrip_field3 (v0 v1 v2 v3 v4 v5 v6 v7 v8 : Str)
    (h0 : numericStr v0) (h1 : numericStr v1) (h2 : numericStr v2) (h3 : numericStr v3) (h4 : numericStr v4) (h5 : numericStr v5) (h6 : numericStr v6) (h7 : numericStr v7) (h8 : numericStr v8) :
    parseField (mkLine9 v0 v1 v2 v3 v4 v5 v6 v7 v8) (lit ("07;38H")) [] = v3 := by
  refine parseField_embed _ _ _ _ (blockOf (lit ("07;56H")) v4 [] ++ (blockOf (lit ("08;11H")) v5 (lit ("C")) ++ (blockOf (lit ("09;11H")) v6 (lit ("ATM")) ++ (blockOf (lit ("10;11H")) v7 [] ++ (blockOf (lit ("10;32H")) v8 []))))) (0 + (blockOf (lit ("05;17H")) v0 (lit ("ppm"))).length + (blockOf (lit ("07;12H")) v1 []).length + (blockOf (lit ("07;25H")) v2 []).length) h3 (by decide) ?_ ?_ ?_ ?_ ?_
  · exact fun c0 h => absurd h (by simp)
  · rw [anchorOf_cons, mkLine9]
    rw [findAux_skip_blockOf (lit ("05;17H")) v0 (lit ("ppm")) _ ('[' :: (lit ("07;38H") ++ ['\x00'])) _ rfl (by decide) (by decide) h0 (by decide)]
    rw [findAux_skip_blockOf (lit ("07;12H")) v1 [] _ ('[' :: (lit ("07;38H") ++ ['\x00'])) _ rfl (by decide) (by decide) h1 (by decide)]
    rw [findAux_skip_blockOf (lit ("07;25H")) v2 [] _ ('[' :: (lit ("07;38H") ++ ['\x00'])) _ rfl (by decide) (by decide) h2 (by decide)]
    exact findAux_at_blockOf' _ _ _ _ _
  · rw [mkLine9, show (0 + (blockOf (lit ("05;17H")) v0 (lit ("ppm"))).length + (blockOf (lit ("07;12H")) v1 []).length + (blockOf (lit ("07;25H")) v2 []).length) + 9 = (blockOf (lit ("05;17H")) v0 (lit ("ppm"))).length + ((blockOf (lit ("07;12H")) v1 []).length + ((blockOf (lit ("07;25H")) v2 []).length + (9))) from by omega]
    rw [drop_app]
    rw [drop_app]
    rw [drop_app]
    exact drop_blockOf _ _ _ _ rfl
  · exact Or.inr ⟨lit ("07;56H"), mkSeg v4 [] ++ (blockOf (lit ("08;11H")) v5 (lit ("C")) ++ (blockOf (lit ("09;11H")) v6 (lit ("ATM")) ++ (blockOf (lit ("10;11H")) v7 [] ++ (blockOf (lit ("10;32H")) v8 [])))), by rw [blockOf, List.append_assoc]⟩
  · exact getLast?_ext _ _ (getLast?_ext _ _ (getLast?_ext _ _ (getLast?_ext _ _ (getLast?_ext _ _ (getLast?_good_blockOf _ _ h8)))))


theorem roundtrip_field4 (v0 v1 v2 v3 v4 v5 v6 v7 v8 : Str)
    (h0 : numericStr v0) (h1 : numericStr v1) (h2 : numericStr v2) (h3 : numericStr v3) (h4 : numericStr v4) (h5 : numericStr v5) (h6 : numericStr v6) (h7 : numericStr v7) (h8 : numericStr v8) :
    parseField (mkLine9 v0 v1 v2 v3 v4 v5 v6 v7 v8) (lit ("07;56H")) [] = v4 := by
  refine parseField_embed _ _ _ _ (blockOf (lit ("08;11H")) v5 (lit ("C")) ++ (blockOf (lit ("09;11H")) v6 (lit ("ATM")) ++ (blockOf (lit ("10;11H")) v7 [] ++ (blockOf (lit ("10;32H")) v8 [])))) (0 + (blockOf (lit ("05;17H")) v0 (lit ("ppm"))).length + (blockOf (lit ("07;12H")) v1 []).length + (blockOf (lit ("07;25H")) v2 []).length + (blockOf (lit ("07;38H")) v3 []).length) h4 (by decide) ?_ ?_ ?_ ?_ ?_
  · exact fun c0 h => absurd h (by simp)
  · rw [anchorOf_cons, mkLine9]
    rw [findAux_skip_blockOf (lit ("05;17H")) v0 (lit ("ppm")) _ ('[' :: (lit ("07;56H") ++ ['\x00'])) _ rfl (by decide) (by decide) h0 (by decide)]
    rw [findAux_skip_blockOf (lit ("07;12H")) v1 [] _ ('[' :: (lit ("07;56H") ++ ['\x00'])) _ rfl (by decide) (by decide) h1 (by decide)]
    rw [findAux_skip_blockOf (lit ("07;25H")) v2 [] _ ('[' :: (lit ("07;56H") ++ ['\x00'])) _ rfl (by decide) (by decide) h2 (by decide)]
    rw [findAux_skip_blockOf (lit ("07;38H")) v3 [] _ ('[' :: (lit ("07;56H") ++ ['\x00'])) _ rfl (by decide) (by decide) h3 (by decide)]
    exact findAux_at_blockOf' _ _ _ _ _
  · rw [mkLine9, show (0 + (blockOf (lit ("05;17H")) v0 (lit ("ppm"))).length + (blockOf (lit ("07;12H")) v1 []).length + (blockOf (lit ("07;25H")) v2 []).length + (blockOf (lit ("07;38H")) v3 []).length) + 9 = (blockOf (lit ("05;17H")) v0 (lit ("ppm"))).length + ((blockOf (lit ("07;12H")) v1 []).length + ((blockOf (lit ("07;25H")) v2 []).length + ((blockOf (lit ("07;38H")) v3 []).length + (9)))) from by omega]
    rw [drop_app]
    rw [drop_app]
    rw [drop_app]
    rw [drop_app]
    exact drop_blockOf _ _ _ _ rfl
  · exact Or.inr ⟨lit ("08;11H"), mkSeg v5 (lit ("C")) ++ (blockOf (lit ("09;11H")) v6 (lit ("ATM")) ++ (blockOf (lit ("10;11H")) v7 [] ++ (blockOf (lit ("10;32H")) v8 []))), by rw [blockOf, List.append_assoc]⟩
  · exact getLast?_ext _ _ (getLast?_ext _ _ (getLast?_ext _ _ (getLast?_ext _ _ (getLast?_good_blockOf _ _ h8))))


theorem roundtrip_field5 (v0 v1 v2 v3 v4 v5 v6 v7 v8 : Str)
    (h0 : numericStr v0) (h1 : numericStr v1) (h2 : numericStr v2) (h3 : numericStr v3) (h4 : numericStr v4) (h5 : numericStr v5) (h6 : numericStr v6) (h7 : numericStr v7) (h8 : numericStr v8) :
    parseField (mkLine9 v0 v1 v2 v3 v4 v5 v6 v7 v8) (lit ("08;11H")) (lit ("C")) = v5 := by
  refine parseField_embed _ _ _ _ (blockOf (lit ("09;11H")) v6 (lit ("ATM")) ++ (blockOf (lit ("10;11H")) v7 [] ++ (blockOf (lit ("10;32H")) v8 []))) (0 + (blockOf (lit ("05;17H")) v0 (lit ("ppm"))).length + (blockOf (lit ("07;12H")) v1 []).length + (blockOf (lit ("07;25H")) v2 []).length + (blockOf (lit ("07;38H")) v3 []).length + (blockOf (lit ("07;56H")) v4 []).length) h5 (by decide) ?_ ?_ ?_ ?_ ?_
  · intro c0 h
    have h' : some 'C' = some c0 := h
    injection h' with h2
    subst h2
    refine ⟨by decide, fun c hc => numChar_ne (h5.2 c hc) 'C' (by decide) (by decide) (by decide)⟩
  · rw [anchorOf_cons, mkLine9]
    rw [findAux_skip_blockOf (lit ("05;17H")) v0 (lit ("ppm")) _ ('[' :: (lit ("08;11H") ++ ['\x00'])) _ rfl (by decide) (by decide) h0 (by decide)]
    rw [findAux_skip_blockOf (lit ("07;12H")) v1 [] _ ('[' :: (lit ("08;11H") ++ ['\x00'])) _ rfl (by decide) (by decide) h1 (by decide)]
    rw [findAux_skip_blockOf (lit ("07;25H")) v2 [] _ ('[' :: (lit ("08;11H") ++ ['\x00'])) _ rfl (by decide) (by decide) h2 (by decide)]
    rw [findAux_skip_blockOf (lit ("07;38H")) v3 [] _ ('[' :: (lit ("08;11H") ++ ['\x00'])) _ rfl (by decide) (by decide) h3 (by decide)]
    rw [findAux_skip_blockOf (lit ("07;56H")) v4 [] _ ('[' :: (lit ("08;11H") ++ ['\x00'])) _ rfl (by decide) (by decide) h4 (by decide)]
    exact findAux_at_blockOf' _ _ _ _ _
  · rw [mkLine9, show (0 + (blockOf (lit ("05;17H")) v0 (lit ("ppm"))).length + (blockOf (lit ("07;12H")) v1 []).length + (blockOf (lit ("07;25H")) v2 []).length + (blockOf (lit ("07;38H")) v3 []).length + (blockOf (lit ("07;56H")) v4 []).length) + 9 = (blockOf (lit ("05;17H")) v0 (lit ("ppm"))).length + ((blockOf (lit ("07;12H")) v1 []).length + ((blockOf (lit ("07;25H")) v2 []).length + ((blockOf (lit ("07;38H")) v3 []).length + ((blockOf (lit ("07;56H")) v4 []).length + (9))))) from by omega]
    rw [drop_app]
    rw [drop_app]
    rw [drop_app]
    rw [drop_app]
    rw [drop_app]
    exact drop_blockOf _ _ _ _ rfl
  · exact Or.inr ⟨lit ("09;11H"), mkSeg v6 (lit ("ATM")) ++ (blockOf (lit ("10;11H")) v7 [] ++ (blockOf (lit ("10;32H")) v8 [])), by rw [blockOf, List.append_assoc]⟩
  · exact getLast?_ext _ _ (getLast?_ext _ _ (getLast?_ext _ _ (getLast?_good_blockOf _ _ h8)))


theorem roundtrip_field6 (v0 v1 v2 v3 v4 v5 v6 v7 v8 : Str)
    (h0 : numericStr v0) (h1 : numericStr v1) (h2 : numericStr v2) (h3 : numericStr v3) (h4 : numericStr v4) (h5 : numericStr v5) (h6 : numericStr v6) (h7 : numericStr v7) (h8 : numericStr v8) :
    parseField (mkLine9 v0 v1 v2 v3 v4 v5 v6 v7 v8) (lit ("09;11H")) (lit ("ATM")) = v6 := by
  refine parseField_embed _ _ _ _ (blockOf (lit ("10;11H")) v7 [] ++ (blockOf (lit ("10;32H")) v8 [])) (0 + (blockOf (lit ("05;17H")) v0 (lit ("ppm"))).length + (blockOf (lit ("07;12H")) v1 []).length + (blockOf (lit ("07;25H")) v2 []).length + (blockOf (lit ("07;38H")) v3 []).length + (blockOf (lit ("07;56H")) v4 []).length + (blockOf (lit ("08;11H")) v5 (lit ("C"))).length) h6 (by decide) ?_ ?_ ?_ ?_ ?_
  · intro c0 h
    have h' : some 'A' = some c0 := h
    injection h' with h2
    subst h2
    refine ⟨by decide, fun c hc => numChar_ne (h6.2 c hc) 'A' (by decide) (by decide) (by decide)⟩
  · rw [anchorOf_cons, mkLine9]
    rw [findAux_skip_blockOf (lit ("05;17H")) v0 (lit ("ppm")) _ ('[' :: (lit ("09;11H") ++ ['\x00'])) _ rfl (by decide) (by decide) h0 (by decide)]
    rw [findAux_skip_blockOf (lit ("07;12H")) v1 [] _ ('[' :: (lit ("09;11H") ++ ['\x00'])) _ rfl (by decide) (by decide) h1 (by decide)]
    rw [findAux_skip_blockOf (lit ("07;25H")) v2 [] _ ('[' :: (lit ("09;11H") ++ ['\x00'])) _ rfl (by decide) (by decide) h2 (by decide)]
    rw [findAux_skip_blockOf (lit ("07;38H")) v3 [] _ ('[' :: (lit ("09;11H") ++ ['\x00'])) _ rfl (by decide) (by decide) h3 (by decide)]
    rw [findAux_skip_blockOf (lit ("07;56H")) v4 [] _ ('[' :: (lit ("09;11H") ++ ['\x00'])) _ rfl (by decide) (by decide) h4 (by decide)]
    rw [findAux_skip_blockOf (lit ("08;11H")) v5 (lit ("C")) _ ('[' :: (lit ("09;11H") ++ ['\x00'])) _ rfl (by decide) (by decide) h5 (by decide)]
    exact findAux_at_blockOf' _ _ _ _ _
  · rw [mkLine9, show (0 + (blockOf (lit ("05;17H")) v0 (lit ("ppm"))).length + (blockOf (lit ("07;12H")) v1 []).length + (blockOf (lit ("07;25H")) v2 []).length + (blockOf (lit ("07;38H")) v3 []).length + (blockOf (lit ("07;56H")) v4 []).length + (blockOf (lit ("08;11H")) v5 (lit ("C"))).length) + 9 = (blockOf (lit ("05;17H")) v0 (lit ("ppm"))).length + ((blockOf (lit ("07;12H")) v1 []).length + ((blockOf (lit ("07;25H")) v2 []).length + ((blockOf (lit ("07;38H")) v3 []).length + ((blockOf (lit ("07;56H")) v4 []).length + ((blockOf (lit ("08;11H")) v5 (lit ("C"))).length + (9)))))) from by omega]
    rw [drop_app]
    rw [drop_app]
    rw [drop_app]
    rw [drop_app]
    rw [drop_app]
    rw [drop_app]
    exact drop_blockOf _ _ _ _ rfl
  · exact Or.inr ⟨lit ("10;11H"), mkSeg v7 [] ++ (blockOf (lit ("10;32H")) v8 []), by rw [blockOf, List.append_assoc]⟩
  · exact getLast?_ext _ _ (getLast?_ext _ _ (getLast?_good_blockOf _ _ h8))


theorem roundtrip_field7 (v0 v1 v2 v3 v4 v5 v6 v7 v8 : Str)
    (h0 : numericStr v0) (h1 : numericStr v1) (h2 : numericStr v2) (h3 : numericStr v3) (h4 : numericStr v4) (h5 : numericStr v5) (h6 : numericStr v6) (h7 : numericStr v7) (h8 : numericStr v8) :
    parseField (mkLine9 v0 v1 v2 v3 v4 v5 v6 v7 v8) (lit ("10;11H")) [] = v7 := by
  refine parseField_embed _ _ _ _ (blockOf (lit ("10;32H")) v8 []) (0 + (blockOf (lit ("05;17H")) v0 (lit ("ppm"))).length + (blockOf (lit ("07;12H")) v1 []).length + (blockOf (lit ("07;25H")) v2 []).length + (blockOf (lit ("07;38H")) v3 []).length + (blockOf (lit ("07;56H")) v4 []).length + (blockOf (lit ("08;11H")) v5 (lit ("C"))).length + (blockOf (lit ("09;11H")) v6 (lit ("ATM"))).length) h7 (by decide) ?_ ?_ ?_ ?_ ?_
  · exact fun c0 h => absurd h (by simp)
  · rw [anchorOf_cons, mkLine9]
    rw [findAux_skip_blockOf (lit ("05;17H")) v0 (lit ("ppm")) _ ('[' :: (lit ("10;11H") ++ ['\x00'])) _ rfl (by decide) (by decide) h0 (by decide)]
    rw [findAux_skip_blockOf (lit ("07;12H")) v1 [] _ ('[' :: (lit ("10;11H") ++ ['\x00'])) _ rfl (by decide) (by decide) h1 (by decide)]
    rw [findAux_skip_blockOf (lit ("07;25H")) v2 [] _ ('[' :: (lit ("10;11H") ++ ['\x00'])) _ rfl (by decide) (by decide) h2 (by decide)]
    rw [findAux_skip_blockOf (lit ("07;38H")) v3 [] _ ('[' :: (lit ("10;11H") ++ ['\x00'])) _ rfl (by decide) (by decide) h3 (by decide)]
    rw [findAux_skip_blockOf (lit ("07;56H")) v4 [] _ ('[' :: (lit ("10;11H") ++ ['\x00'])) _ rfl (by decide) (by decide) h4 (by decide)]
    rw [findAux_skip_blockOf (lit ("08;11H")) v5 (lit ("C")) _ ('[' :: (lit ("10;11H") ++ ['\x00'])) _ rfl (by decide) (by decide) h5 (by decide)]
    rw [findAux_skip_blockOf (lit ("09;11H")) v6 (lit ("ATM")) _ ('[' :: (lit ("10;11H") ++ ['\x00'])) _ rfl (by decide) (by decide) h6 (by decide)]
    exact findAux_at_blockOf' _ _ _ _ _
  · rw [mkLine9, show (0 + (blockOf (lit ("05;17H")) v0 (lit ("ppm"))).length + (blockOf (lit ("07;12H")) v1 []).length + (blockOf (lit ("07;25H")) v2 []).length + (blockOf (lit ("07;38H")) v3 []).length + (blockOf (lit ("07;56H")) v4 []).length + (blockOf (lit ("08;11H")) v5 (lit ("C"))).length + (blockOf (lit ("09;11H")) v6 (lit ("ATM"))).length) + 9 = (blockOf (lit ("05;17H")) v0 (lit ("ppm"))).length + ((blockOf (lit ("07;12H")) v1 []).length + ((blockOf (lit ("07;25H")) v2 []).length + ((blockOf (lit ("07;38H")) v3 []).length + ((blockOf (lit ("07;56H")) v4 []).length + ((blockOf (lit ("08;11H")) v5 (lit ("C"))).length + ((blockOf (lit ("09;11H")) v6 (lit ("ATM"))).length + (9))))))) from by omega]
    rw [drop_app]
    rw [drop_app]
    rw [drop_app]
    rw [drop_app]
    rw [drop_app]
    rw [drop_app]
    rw [drop_app]
    exact drop_blockOf _ _ _ _ rfl
  · exact Or.inr ⟨lit ("10;32H"), mkSeg v8 [], by rw [blockOf]⟩
  · exact getLast?_ext _ _ (getLast?_good_blockOf _ _ h8)


theorem roundtrip_field8 (v0 v1 v2 v3 v4 v5 v6 v7 v8 : Str)
    (h0 : numericStr v0) (h1 : numericStr v1) (h2 : numericStr v2) (h3 : numericStr v3) (h4 : numericStr v4) (h5 : numericStr v5) (h6 : numericStr v6) (h7 : numericStr v7) (h8 : numericStr v8) :
    parseField (mkLine9 v0 v1 v2 v3 v4 v5 v6 v7 v8) (lit ("10;32H")) [] = v8 := by
  refine parseField_embed _ _ _ _ ([]) (0 + (blockOf (lit ("05;17H")) v0 (lit ("ppm"))).length + (blockOf (lit ("07;12H")) v1 []).length + (blockOf (lit ("07;25H")) v2 []).length + (blockOf (lit ("07;38H")) v3 []).length + (blockOf (lit ("07;56H")) v4 []).length + (blockOf (lit ("08;11H")) v5 (lit ("C"))).length + (blockOf (lit ("09;11H")) v6 (lit ("ATM"))).length + (blockOf (lit ("10;11H")) v7 []).length) h8 (by decide) ?_ ?_ ?_ ?_ ?_
  · exact fun c0 h => absurd h (by simp)
  · rw [anchorOf_cons, mkLine9]
    rw [findAux_skip_blockOf (lit ("05;17H")) v0 (lit ("ppm")) _ ('[' :: (lit ("10;32H") ++ ['\x00'])) _ rfl (by decide) (by decide) h0 (by decide)]
    rw [findAux_skip_blockOf (lit ("07;12H")) v1 [] _ ('[' :: (lit ("10;32H") ++ ['\x00'])) _ rfl (by decide) (by decide) h1 (by decide)]
    rw [findAux_skip_blockOf (lit ("07;25H")) v2 [] _ ('[' :: (lit ("10;32H") ++ ['\x00'])) _ rfl (by decide) (by decide) h2 (by decide)]
    rw [findAux_skip_blockOf (lit ("07;38H")) v3 [] _ ('[' :: (lit ("10;32H") ++ ['\x00'])) _ rfl (by decide) (by decide) h3 (by decide)]
    rw [findAux_skip_blockOf (lit ("07;56H")) v4 [] _ ('[' :: (lit ("10;32H") ++ ['\x00'])) _ rfl (by decide) (by decide) h4 (by decide)]
    rw [findAux_skip_blockOf (lit ("08;11H")) v5 (lit ("C")) _ ('[' :: (lit ("10;32H") ++ ['\x00'])) _ rfl (by decide) (by decide) h5 (by decide)]
    rw [findAux_skip_blockOf (lit ("09;11H")) v6 (lit ("ATM")) _ ('[' :: (lit ("10;32H") ++ ['\x00'])) _ rfl (by decide) (by decide) h6 (by decide)]
    rw [findAux_skip_blockOf (lit ("10;11H")) v7 [] _ ('[' :: (lit ("10;32H") ++ ['\x00'])) _ rfl (by decide) (by decide) h7 (by decide)]
    rw [← List.append_nil (blockOf (lit ("10;32H")) v8 [])]
    exact findAux_at_blockOf' _ _ _ _ _
  · rw [mkLine9, show (0 + (blockOf (lit ("05;17H")) v0 (lit ("ppm"))).length + (blockOf (lit ("07;12H")) v1 []).length + (blockOf (lit ("07;25H")) v2 []).length + (blockOf (lit ("07;38H")) v3 []).length + (blockOf (lit ("07;56H")) v4 []).length + (blockOf (lit ("08;11H")) v5 (lit ("C"))).length + (blockOf (lit ("09;11H")) v6 (lit ("ATM"))).length + (blockOf (lit ("10;11H")) v7 []).length) + 9 = (blockOf (lit ("05;17H")) v0 (lit ("ppm"))).length + ((blockOf (lit ("07;12H")) v1 []).length + ((blockOf (lit ("07;25H")) v2 []).length + ((blockOf (lit ("07;38H")) v3 []).length + ((blockOf (lit ("07;56H")) v4 []).length + ((blockOf (lit ("08;11H")) v5 (lit ("C"))).length + ((blockOf (lit ("09;11H")) v6 (lit ("ATM"))).length + ((blockOf (lit ("10;11H")) v7 []).length + (9)))))))) from by omega]
    rw [drop_app]
    rw [drop_app]
    rw [drop_app]
    rw [drop_app]
    rw [drop_app]
    rw [drop_app]
    rw [drop_app]
    rw [drop_app]
    rw [List.append_nil]
    exact drop_blockOf' _ _ _ rfl
  · exact Or.inl rfl
  · rw [List.append_nil]
    exact getLast?_good_mkSeg_nil v8 h8

/- ------------------------------------------------------------------
Claim C9 — round-trip of the Frame Parser.
------------------------------------------------------------------ -/

/-- Claim C9: for any synthetic instrument line built by embedding
nine (numeric-shaped, nonempty) field values at the nine documented
anchor positions with the correct unit tokens, the parser recovers
exactly those values, with the ozone field scaled by 1000 (ppm→ppb)
and re-rendered. -/
theorem serial_roundtrip (v0 v1 v2 v3 v4 v5 v6 v7 v8 : Str) (q : ℚ)
    (h0 : numericStr v0) (h1 : numericStr v1) (h2 : numericStr v2) (h3 : numericStr v3)
    (h4 : numericStr v4) (h5 : numericStr v5) (h6 : numericStr v6) (h7 : numericStr v7)
    (h8 : numericStr v8)
    (hq : pyFloat? v0 = some q) :
    serialvector (mkLine9 v0 v1 v2 v3 v4 v5 v6 v7 v8)
      = [pyStrFloat (1000 * q), v1, v2, v3, v4, v5, v6, v7, v8] := by
  rw [serialvector_unfold,
    roundtrip_field0 v0 v1 v2 v3 v4 v5 v6 v7 v8 h0 h1 h2 h3 h4 h5 h6 h7 h8,
    roundtrip_field1 v0 v1 v2 v3 v4 v5 v6 v7 v8 h0 h1 h2 h3 h4 h5 h6 h7 h8,
    roundtrip_field2 v0 v1 v2 v3 v4 v5 v6 v7 v8 h0 h1 h2 h3 h4 h5 h6 h7 h8,
    roundtrip_field3 v0 v1 v2 v3 v4 v5 v6 v7 v8 h0 h1 h2 h3 h4 h5 h6 h7 h8,
    roundtrip_field4 v0 v1 v2 v3 v4 v5 v6 v7 v8 h0 h1 h2 h3 h4 h5 h6 h7 h8,
    roundtrip_field5 v0 v1 v2 v3 v4 v5 v6 v7 v8 h0 h1 h2 h3 h4 h5 h6 h7 h8,
    roundtrip_field6 v0 v1 v2 v3 v4 v5 v6 v7 v8 h0 h1 h2 h3 h4 h5 h6 h7 h8,
    roundtrip_field7 v0 v1 v2 v3 v4 v5 v6 v7 v8 h0 h1 h2 h3 h4 h5 h6 h7 h8,
    roundtrip_field8 v0 v1 v2 v3 v4 v5 v6 v7 v8 h0 h1 h2 h3 h4 h5 h6 h7 h8]
  unfold ozoneConv
  rw [hq]

/-- Witness for `serial_roundtrip`: a concrete line with ozone `5` ppm
and integer values for the other eight fields. -/
theorem serial_roundtrip_witness :
    serialvector (mkLine9 (lit ("5")) (lit ("0")) (lit ("2")) (lit ("308")) (lit ("12"))
        (lit ("31.5")) (lit ("0.98")) (lit ("2722")) (lit ("2525")))
      = [pyStrFloat (1000 * 5), lit ("0"), lit ("2"), lit ("308"), lit ("12"),
         lit ("31.5"), lit ("0.98"), lit ("2722"), lit ("2525")] := by
  have hq : pyFloat? (lit ("5")) = some 5 := by
    have h1 : pyFloat? (lit ("5"))
        = some ((1 : ℚ) * ((digitsToNat (lit ("5")) : ℕ) : ℚ)) := rfl
    rw [h1, show digitsToNat (lit ("5")) = 5 from rfl]
    norm_num
  exact serial_roundtrip (lit ("5")) (lit ("0")) (lit ("2")) (lit ("308")) (lit ("12"))
    (lit ("31.5")) (lit ("0.98")) (lit ("2722")) (lit ("2525")) 5
    (by constructor <;> decide) (by constructor <;> decide) (by constructor <;> decide)
    (by constructor <;> decide) (by constructor <;> decide) (by constructor <;> decide)
    (by constructor <;> decide) (by constructor <;> decide) (by constructor <;> decide) hq
